import Mathlib

/-! # ST7565 graphic LCD driver (`lcdST7565.c`)

A shallow embedding of the driver: the C globals and the electrical side of the
display become one explicit state record, every driver function becomes a pure
function on that record, and the bytes clocked out on the SPI bus are appended
to a trace kept in the record.

Conventions
* `uint8_t` and `uint16_t` values are natural numbers; a conversion to a
  narrower type is written as an explicit `% 256` or `% 65536` at the place
  where C performs it (argument passing, compound assignment).
* A function returning `int` returns a pair of the return code and the new state.
* `usleep` has no effect on the state and is left out.
* Only the compact font (`FULL_FONT` not defined) is embedded, as in the source.
-/

namespace LcdST7565

/-! ## Build and platform -/

/-- What the driver's behaviour depends on besides its inputs: the
`ADAFRUIT_ST7565_LCD` build switch (commented out in the source, so `false` is
the build as shipped), whether the `pigpio` calls `gpioWrite` and `spiWrite`
succeed, and whether plain `char` is signed on the target (this fixes the value
of the character constant `'\x80'`). -/
structure Env where
  ADAFRUIT_ST7565_LCD : Bool
  gpioWrite_ok : Bool
  spiWrite_ok : Bool
  char_signed : Bool
  deriving DecidableEq, Repr

/-- One byte clocked out on the SPI bus, tagged with the level of the A0 line
while it was sent: A0 low is a command byte, A0 high is a display-data byte. -/
inductive BusByte where
  | cmd (b : Nat)
  | data (b : Nat)
  deriving DecidableEq, Repr

/-- The driver's globals (`gx_spihandle`, `gw_row`, `gw_column`), the levels of
the two GPIO lines it drives, and the trace of bytes sent so far, oldest first. -/
structure Lcd where
  gx_spihandle : Int
  gw_row : Nat
  gw_column : Nat
  pin_A0 : Nat
  pin_nRST : Nat
  bus : List BusByte
  deriving DecidableEq, Repr

/-! ## Constants of the source -/

def LCD_A0 : Nat := 24
def LCD_nRST : Nat := 25

def ST7565_LCD_CMD_DISPLAY_OFF : Nat := 0xAE
def ST7565_LCD_CMD_DISPLAY_ON : Nat := 0xAF
def ST7565_LCD_CMD_SET_DISP_START_LINE : Nat := 0x40
def ST7565_LCD_CMD_SET_PAGE : Nat := 0xB0
def ST7565_LCD_CMD_SET_COLUMN_UPPER : Nat := 0x10
def ST7565_LCD_CMD_SET_COLUMN_LOWER : Nat := 0x00
def ST7565_LCD_CMD_SET_ADC_NORMAL : Nat := 0xA0
def ST7565_LCD_CMD_SET_ALLPTS_NORMAL : Nat := 0xA4
def ST7565_LCD_CMD_SET_ALLPTS_ON : Nat := 0xA5
def ST7565_LCD_CMD_SET_BIAS_7 : Nat := 0xA3
def ST7565_LCD_CMD_INTERNAL_RESET : Nat := 0xE2
def ST7565_LCD_CMD_SET_COM_NORMAL : Nat := 0xC0
def ST7565_LCD_CMD_SET_POWER_CONTROL : Nat := 0x28
def ST7565_LCD_CMD_SET_RESISTOR_RATIO : Nat := 0x20
def ST7565_LCD_CMD_SET_VOLUME_FIRST : Nat := 0x81
def ST7565_LCD_CMD_SET_VOLUME_SECOND : Nat := 0x0
def ST7565_LCD_CMD_SET_STATIC_OFF : Nat := 0xAC
def ST7565_LCD_CMD_SET_STATIC_ON : Nat := 0xAD
def ST7565_LCD_CMD_SET_STATIC_REG : Nat := 0x0

def ST7565_LCD_MAX_ROWS : Nat := 8
def ST7565_LCD_MAX_COLUMNS : Nat := 128

/-- Default contrast: `0x18` when `ADAFRUIT_ST7565_LCD` is defined, else `0x0`. -/
def ST7565_LCD_PARAM_BRIGHTNESS (env : Env) : Int :=
  if env.ADAFRUIT_ST7565_LCD then 0x18 else 0x0

def ST7565_LCD_PARAM_FONT_WIDTH : Nat := 5
def ST7565_LCD_PARAM_FONT_CHARWIDTH : Nat := 7
def ST7565_LCD_PARAM_FONT_CHAR_MINVAL : Nat := 32
def ST7565_LCD_PARAM_FONT_CHAR_MAXVAL : Nat := 126

/-- The character constant `'\n'`. -/
def ST7565_LCD_FMT_NEWINE : Int := 10

/-- The character constant `'\x80'`: an `int` of value 128 where plain `char`
is unsigned and of value -128 where it is signed. -/
def ST7565_LCD_FMT_CURSOR (env : Env) : Int :=
  if env.char_signed then -128 else 128

/-- The compact 5x7 font: 95 glyphs of 5 bytes, character codes 32 to 126. -/
@[irreducible] def gca_font : List Nat :=
  [
   0x00, 0x00, 0x00, 0x00, 0x00,  -- ASC(32)
   0x00, 0x00, 0xFA, 0x00, 0x00,  -- ASC(33)
   0x00, 0xE0, 0x00, 0xE0, 0x00,  -- ASC(34)
   0x28, 0xFE, 0x28, 0xFE, 0x28,  -- ASC(35)
   0x24, 0x54, 0xFE, 0x54, 0x48,  -- ASC(36)
   0xC4, 0xC8, 0x10, 0x26, 0x46,  -- ASC(37)
   0x6C, 0x92, 0x6A, 0x04, 0x0A,  -- ASC(38)
   0x00, 0x10, 0xE0, 0xC0, 0x00,  -- ASC(39)
   0x00, 0x38, 0x44, 0x82, 0x00,  -- ASC(40)
   0x00, 0x82, 0x44, 0x38, 0x00,  -- ASC(41)
   0x54, 0x38, 0xFE, 0x38, 0x54,  -- ASC(42)
   0x10, 0x10, 0x7C, 0x10, 0x10,  -- ASC(43)
   0x00, 0x01, 0x0E, 0x0C, 0x00,  -- ASC(44)
   0x10, 0x10, 0x10, 0x10, 0x10,  -- ASC(45)
   0x00, 0x00, 0x06, 0x06, 0x00,  -- ASC(46)
   0x04, 0x08, 0x10, 0x20, 0x40,  -- ASC(47)
   0x7C, 0x8A, 0x92, 0xA2, 0x7C,  -- ASC(48)
   0x00, 0x42, 0xFE, 0x02, 0x00,  -- ASC(49)
   0x4E, 0x92, 0x92, 0x92, 0x62,  -- ASC(50)
   0x84, 0x82, 0x92, 0xB2, 0xCC,  -- ASC(51)
   0x18, 0x28, 0x48, 0xFE, 0x08,  -- ASC(52)
   0xE4, 0xA2, 0xA2, 0xA2, 0x9C,  -- ASC(53)
   0x3C, 0x52, 0x92, 0x92, 0x8C,  -- ASC(54)
   0x82, 0x84, 0x88, 0x90, 0xE0,  -- ASC(55)
   0x6C, 0x92, 0x92, 0x92, 0x6C,  -- ASC(56)
   0x62, 0x92, 0x92, 0x94, 0x78,  -- ASC(57)
   0x00, 0x00, 0x28, 0x00, 0x00,  -- ASC(58)
   0x00, 0x02, 0x2C, 0x00, 0x00,  -- ASC(59)
   0x00, 0x10, 0x28, 0x44, 0x82,  -- ASC(60)
   0x28, 0x28, 0x28, 0x28, 0x28,  -- ASC(61)
   0x00, 0x82, 0x44, 0x28, 0x10,  -- ASC(62)
   0x40, 0x80, 0x9A, 0x90, 0x60,  -- ASC(63)
   0x7C, 0x82, 0xBA, 0x9A, 0x72,  -- ASC(64)
   0x3E, 0x48, 0x88, 0x48, 0x3E,  -- ASC(65)
   0xFE, 0x92, 0x92, 0x92, 0x6C,  -- ASC(66)
   0x7C, 0x82, 0x82, 0x82, 0x44,  -- ASC(67)
   0xFE, 0x82, 0x82, 0x82, 0x7C,  -- ASC(68)
   0xFE, 0x92, 0x92, 0x92, 0x82,  -- ASC(69)
   0xFE, 0x90, 0x90, 0x90, 0x80,  -- ASC(70)
   0x7C, 0x82, 0x82, 0x8A, 0xCE,  -- ASC(71)
   0xFE, 0x10, 0x10, 0x10, 0xFE,  -- ASC(72)
   0x00, 0x82, 0xFE, 0x82, 0x00,  -- ASC(73)
   0x04, 0x02, 0x82, 0xFC, 0x80,  -- ASC(74)
   0xFE, 0x10, 0x28, 0x44, 0x82,  -- ASC(75)
   0xFE, 0x02, 0x02, 0x02, 0x02,  -- ASC(76)
   0xFE, 0x40, 0x38, 0x40, 0xFE,  -- ASC(77)
   0xFE, 0x20, 0x10, 0x08, 0xFE,  -- ASC(78)
   0x7C, 0x82, 0x82, 0x82, 0x7C,  -- ASC(79)
   0xFE, 0x90, 0x90, 0x90, 0x60,  -- ASC(80)
   0x7C, 0x82, 0x8A, 0x84, 0x7A,  -- ASC(81)
   0xFE, 0x90, 0x98, 0x94, 0x62,  -- ASC(82)
   0x64, 0x92, 0x92, 0x92, 0x4C,  -- ASC(83)
   0xC0, 0x80, 0xFE, 0x80, 0xC0,  -- ASC(84)
   0xFC, 0x02, 0x02, 0x02, 0xFC,  -- ASC(85)
   0xF8, 0x04, 0x02, 0x04, 0xF8,  -- ASC(86)
   0xFC, 0x02, 0x1C, 0x02, 0xFC,  -- ASC(87)
   0xC6, 0x28, 0x10, 0x28, 0xC6,  -- ASC(88)
   0xC0, 0x20, 0x1E, 0x20, 0xC0,  -- ASC(89)
   0x86, 0x9A, 0x92, 0xB2, 0xC2,  -- ASC(90)
   0x00, 0xFE, 0x82, 0x82, 0x82,  -- ASC(91)
   0x40, 0x20, 0x10, 0x08, 0x04,  -- ASC(92)
   0x00, 0x82, 0x82, 0x82, 0xFE,  -- ASC(93)
   0x20, 0x40, 0x80, 0x40, 0x20,  -- ASC(94)
   0x02, 0x02, 0x02, 0x02, 0x02,  -- ASC(95)
   0x00, 0xC0, 0xE0, 0x10, 0x00,  -- ASC(96)
   0x04, 0x2A, 0x2A, 0x1E, 0x02,  -- ASC(97)
   0xFE, 0x14, 0x22, 0x22, 0x1C,  -- ASC(98)
   0x1C, 0x22, 0x22, 0x22, 0x14,  -- ASC(99)
   0x1C, 0x22, 0x22, 0x14, 0xFE,  -- ASC(100)
   0x1C, 0x2A, 0x2A, 0x2A, 0x18,  -- ASC(101)
   0x00, 0x10, 0x7E, 0x90, 0x40,  -- ASC(102)
   0x18, 0x25, 0x25, 0x39, 0x1E,  -- ASC(103)
   0xFE, 0x10, 0x20, 0x20, 0x1E,  -- ASC(104)
   0x00, 0x22, 0xBE, 0x02, 0x00,  -- ASC(105)
   0x04, 0x02, 0x02, 0xBC, 0x00,  -- ASC(106)
   0xFE, 0x08, 0x14, 0x22, 0x00,  -- ASC(107)
   0x00, 0x82, 0xFE, 0x02, 0x00,  -- ASC(108)
   0x3E, 0x20, 0x1E, 0x20, 0x1E,  -- ASC(109)
   0x3E, 0x10, 0x20, 0x20, 0x1E,  -- ASC(110)
   0x1C, 0x22, 0x22, 0x22, 0x1C,  -- ASC(111)
   0x3F, 0x18, 0x24, 0x24, 0x18,  -- ASC(112)
   0x18, 0x24, 0x24, 0x18, 0x3F,  -- ASC(113)
   0x3E, 0x10, 0x20, 0x20, 0x10,  -- ASC(114)
   0x12, 0x2A, 0x2A, 0x2A, 0x24,  -- ASC(115)
   0x20, 0x20, 0xFC, 0x22, 0x24,  -- ASC(116)
   0x3C, 0x02, 0x02, 0x04, 0x3E,  -- ASC(117)
   0x38, 0x04, 0x02, 0x04, 0x38,  -- ASC(118)
   0x3C, 0x02, 0x0C, 0x02, 0x3C,  -- ASC(119)
   0x22, 0x14, 0x08, 0x14, 0x22,  -- ASC(120)
   0x32, 0x09, 0x09, 0x09, 0x3E,  -- ASC(121)
   0x22, 0x26, 0x2A, 0x32, 0x22,  -- ASC(122)
   0x00, 0x10, 0x6C, 0x82, 0x00,  -- ASC(123)
   0x00, 0x00, 0xEE, 0x00, 0x00,  -- ASC(124)
   0x00, 0x82, 0x6C, 0x10, 0x00,  -- ASC(125)
   0x40, 0x80, 0x40, 0x20, 0x40  -- ASC(126)
  ]

/-! ## The pigpio calls -/

/-- The call `gpioWrite(gpio, level)` of the pigpio library: on success the
line takes the level and 0 is returned, on failure nothing changes and a
negative code is returned. -/
def gpioWrite (env : Env) (gpio level : Nat) (s : Lcd) : Int × Lcd :=
  if env.gpioWrite_ok then
    (0, if gpio = LCD_A0 then { s with pin_A0 := level }
        else if gpio = LCD_nRST then { s with pin_nRST := level }
        else s)
  else (-3, s)

/-- The call `spiWrite(handle, buf, count)` of the pigpio library with
`count = buf.length`: on success every byte goes out on the bus, read by the
display as a command while A0 is low and as data while A0 is high, and the
count is returned; on failure nothing is sent and a negative code is
returned. The driver only calls it with handle 0. -/
def spiWrite (env : Env) (buf : List Nat) (s : Lcd) : Int × Lcd :=
  if env.spiWrite_ok then
    (buf.length,
      { s with bus := s.bus ++ buf.map (fun b => if s.pin_A0 = 0 then BusByte.cmd b else BusByte.data b) })
  else (-89, s)

/-! ## The driver -/

/-- C function `lcd_cmd(uint8_t byte)`. -/
def lcd_cmd (env : Env) (byte : Nat) (s : Lcd) : Int × Lcd :=
  if s.gx_spihandle ≠ 0 then (-41, s)
  else
    let g := gpioWrite env LCD_A0 0 s
    if g.1 ≠ 0 then (-42, g.2)
    else
      let w := spiWrite env [byte % 256] g.2
      if w.1 ≠ 1 then (-43, w.2) else (0, w.2)

/-- C function `lcd_data(uint8_t byte)`. -/
def lcd_data (env : Env) (byte : Nat) (s : Lcd) : Int × Lcd :=
  if s.gx_spihandle ≠ 0 then (-31, s)
  else
    let g := gpioWrite env LCD_A0 1 s
    if g.1 ≠ 0 then (-32, g.2)
    else
      let w := spiWrite env [byte % 256] g.2
      if w.1 ≠ 1 then (-33, w.2) else (0, w.2)

/-- C function `lcd_reset()`. -/
def lcd_reset (env : Env) (s : Lcd) : Int × Lcd :=
  let g := gpioWrite env LCD_nRST 0 s
  if g.1 ≠ 0 then (-51, g.2)
  else
    let h := gpioWrite env LCD_nRST 1 g.2
    if h.1 ≠ 0 then (-52, h.2) else (0, h.2)

/-- C function `lcd_bright(int bValue)`. On a two's-complement `int`,
`bValue & 0x3f` is `bValue` modulo 64. -/
def lcd_bright (env : Env) (bValue : Int) (s : Lcd) : Int × Lcd :=
  let r := lcd_cmd env ST7565_LCD_CMD_SET_VOLUME_FIRST s
  if r.1 ≠ 0 then r
  else lcd_cmd env (ST7565_LCD_CMD_SET_VOLUME_SECOND ||| (bValue % 64).toNat) r.2

/-- C function `lcd_goto(uint8_t bColumn, uint8_t bRow)`; the arguments are the
values after conversion to `uint8_t`. The return codes of the three `lcd_cmd`
calls are dropped, as in the source. `7 - bRow` is only evaluated with
`bRow < 8`, where truncated subtraction agrees with C. -/
def lcd_goto (env : Env) (bColumn bRow : Nat) (s : Lcd) : Int × Lcd :=
  if bColumn ≥ ST7565_LCD_MAX_COLUMNS then (-61, s)
  else if bRow ≥ (if env.ADAFRUIT_ST7565_LCD then ST7565_LCD_MAX_ROWS + 1 else ST7565_LCD_MAX_ROWS) then
    (-62, s)
  else
    let s1 := { s with gw_row := bRow, gw_column := bColumn }
    if env.ADAFRUIT_ST7565_LCD then
      let s2 := (lcd_cmd env (ST7565_LCD_CMD_SET_PAGE ||| ((7 - (bRow &&& 0x7)) ^^^ 4)) s1).2
      let bColumn1 := (bColumn + 1) % 256
      let s3 := (lcd_cmd env (ST7565_LCD_CMD_SET_COLUMN_LOWER ||| (bColumn1 &&& 0xf)) s2).2
      let s4 := (lcd_cmd env (ST7565_LCD_CMD_SET_COLUMN_UPPER ||| ((bColumn1 >>> 4) &&& 0x7)) s3).2
      (0, s4)
    else
      let s2 := (lcd_cmd env (ST7565_LCD_CMD_SET_PAGE ||| (7 - bRow)) s1).2
      let s3 := (lcd_cmd env (ST7565_LCD_CMD_SET_COLUMN_LOWER ||| (bColumn &&& 0xf)) s2).2
      let s4 := (lcd_cmd env (ST7565_LCD_CMD_SET_COLUMN_UPPER ||| ((bColumn >>> 4) &&& 0x7)) s3).2
      (0, s4)

/-- The loop `for (...; i > 0; i--) lcd_data(byte);` run `n` times; the
return codes are dropped, as in the source. -/
def lcd_data_loop (env : Env) (byte : Nat) : Nat → Lcd → Lcd
  | 0, s => s
  | n + 1, s => lcd_data_loop env byte n (lcd_data env byte s).2

/-- The row loop of `lcd_clear` with `n` iterations left and loop variable `r`,
followed by the final `return lcd_goto(0, 0)`. -/
def lcd_clear_loop (env : Env) : Nat → Nat → Lcd → Int × Lcd
  | 0, _, s => lcd_goto env 0 0 s
  | n + 1, r, s =>
    let g := lcd_goto env 0 r s
    if g.1 ≠ 0 then g
    else lcd_clear_loop env n (r + 1) (lcd_data_loop env 0x00 ST7565_LCD_MAX_COLUMNS g.2)

/-- C function `lcd_clear()`: the row loop runs for `r = 0 .. 7`, and for
`r = 0 .. 8` when `ADAFRUIT_ST7565_LCD` is defined. -/
def lcd_clear (env : Env) (s : Lcd) : Int × Lcd :=
  lcd_clear_loop env
    (if env.ADAFRUIT_ST7565_LCD then ST7565_LCD_MAX_ROWS + 1 else ST7565_LCD_MAX_ROWS) 0 s

/-- C function `lcd_init()`. -/
def lcd_init (env : Env) (s : Lcd) : Int × Lcd :=
  let g1 := gpioWrite env LCD_A0 0 s
  if g1.1 ≠ 0 then (-24, g1.2)
  else
    let g2 := gpioWrite env LCD_nRST 0 g1.2
    if g2.1 ≠ 0 then (-25, g2.2)
    else
      let s := (lcd_reset env g2.2).2
      let s := (lcd_cmd env ST7565_LCD_CMD_SET_BIAS_7 s).2
      let s := (lcd_cmd env ST7565_LCD_CMD_SET_ADC_NORMAL s).2
      let s := (lcd_cmd env ST7565_LCD_CMD_SET_COM_NORMAL s).2
      let s := (lcd_cmd env ST7565_LCD_CMD_SET_DISP_START_LINE s).2
      let s := (lcd_cmd env (ST7565_LCD_CMD_SET_POWER_CONTROL ||| 0x4) s).2
      let s := (lcd_cmd env (ST7565_LCD_CMD_SET_POWER_CONTROL ||| 0x6) s).2
      let s := (lcd_cmd env (ST7565_LCD_CMD_SET_POWER_CONTROL ||| 0x7) s).2
      let s := (lcd_cmd env ( ST7565_LCD_CMD_SET_RESISTOR_RATIO ||| 0x7) s).2
      let s := (lcd_cmd env ST7565_LCD_CMD_DISPLAY_ON s).2
      let s := (lcd_cmd env ST7565_LCD_CMD_SET_ALLPTS_NORMAL s).2
      let s := (lcd_bright env (ST7565_LCD_PARAM_BRIGHTNESS env) s).2
      lcd_clear env s

/-- C function `lcd_sleep()`. -/
def lcd_sleep (env : Env) (s : Lcd) : Lcd :=
  let s := (lcd_cmd env ST7565_LCD_CMD_SET_STATIC_OFF s).2
  let s := (lcd_cmd env ST7565_LCD_CMD_DISPLAY_OFF s).2
  (lcd_cmd env ST7565_LCD_CMD_SET_ALLPTS_ON s).2

/-- C function `lcd_wakeup()`. -/
def lcd_wakeup (env : Env) (s : Lcd) : Lcd :=
  let s := (lcd_cmd env ST7565_LCD_CMD_INTERNAL_RESET s).2
  let s := (lcd_bright env (ST7565_LCD_PARAM_BRIGHTNESS env) s).2
  let s := (lcd_cmd env ST7565_LCD_CMD_SET_ALLPTS_NORMAL s).2
  let s := (lcd_cmd env ST7565_LCD_CMD_DISPLAY_ON s).2
  let s := (lcd_cmd env ST7565_LCD_CMD_SET_STATIC_ON s).2
  (lcd_cmd env (ST7565_LCD_CMD_SET_STATIC_REG ||| 0x03) s).2

/-- C function `lcd_standby(uint8_t bWakeUp)`. -/
def lcd_standby (env : Env) (bWakeUp : Nat) (s : Lcd) : Lcd :=
  if bWakeUp = 0 then
    let s := (lcd_cmd env ST7565_LCD_CMD_SET_STATIC_ON s).2
    let s := (lcd_cmd env (ST7565_LCD_CMD_SET_STATIC_REG ||| 0x03) s).2
    let s := (lcd_cmd env ST7565_LCD_CMD_DISPLAY_OFF s).2
    (lcd_cmd env ST7565_LCD_CMD_SET_ALLPTS_ON s).2
  else
    let s := (lcd_cmd env ST7565_LCD_CMD_SET_ALLPTS_NORMAL s).2
    (lcd_cmd env ST7565_LCD_CMD_DISPLAY_ON s).2

/-- C function `_lcd_process_putc_newline()`. `gw_row` is a `uint16_t`, so the
increment wraps at 65536, and it is converted to `uint8_t` when passed to
`lcd_goto`. -/
def _lcd_process_putc_newline (env : Env) (s : Lcd) : Lcd :=
  let s1 := { s with gw_row := (s.gw_row + 1) % 65536 }
  let s2 := if s1.gw_row ≥ ST7565_LCD_MAX_ROWS then { s1 with gw_row := 0 } else s1
  (lcd_goto env 0 (s2.gw_row % 256) s2).2

/-- The glyph loop of `lcd_putc`: `i` iterations left, `p` the index of
`pFont` in `gca_font`. Reading outside the table is undefined behaviour and
yields `none`. -/
def lcd_putc_glyph (env : Env) : Nat → Nat → Lcd → Option Lcd
  | 0, _, s => some s
  | i + 1, p, s =>
    match gca_font[p]? with
    | none => none
    | some d => lcd_putc_glyph env i (p + 1) (lcd_data env d s).2

/-- C function `lcd_putc(char c)`, with `c` given as its byte value. The
result is `none` when the glyph loop reads outside `gca_font`. `gw_column` is
a `uint16_t`, so `+=` wraps at 65536. -/
def lcd_putc (env : Env) (c : Nat) (s : Lcd) : Option Lcd :=
  let data := (c % 256) &&& 0x7F
  if data < ST7565_LCD_PARAM_FONT_CHAR_MINVAL then
    if (data : Int) = ST7565_LCD_FMT_NEWINE then
      some (_lcd_process_putc_newline env s)
    else if (data : Int) = ST7565_LCD_FMT_CURSOR env then
      some (lcd_data_loop env 0xFC ST7565_LCD_PARAM_FONT_CHARWIDTH s)
    else some s
  else
    let s1 := { s with gw_column := (s.gw_column + ST7565_LCD_PARAM_FONT_CHARWIDTH) % 65536 }
    let s2 :=
      if s1.gw_column ≥ ST7565_LCD_MAX_COLUMNS then
        let t := _lcd_process_putc_newline env s1
        { t with gw_column := (t.gw_column + ST7565_LCD_PARAM_FONT_CHARWIDTH) % 65536 }
      else s1
    let uoffset := ((data - ST7565_LCD_PARAM_FONT_CHAR_MINVAL) * ST7565_LCD_PARAM_FONT_WIDTH) % 4294967296
    match lcd_putc_glyph env ST7565_LCD_PARAM_FONT_WIDTH uoffset s2 with
    | none => none
    | some s3 =>
      some (lcd_data_loop env 0x00 (ST7565_LCD_PARAM_FONT_CHARWIDTH - ST7565_LCD_PARAM_FONT_WIDTH) s3)

/-- The loop of `main` for the `w` command: `lcd_putc` on every byte of the
string, left to right. -/
def lcd_puts (env : Env) : List Nat → Lcd → Option Lcd
  | [], s => some s
  | c :: cs, s =>
    match lcd_putc env c s with
    | none => none
    | some t => lcd_puts env cs t

/-- The transport works: the SPI handle is the open handle 0 and the pigpio
calls succeed. -/
def Working (env : Env) (s : Lcd) : Prop :=
  s.gx_spihandle = 0 ∧ env.gpioWrite_ok = true ∧ env.spiWrite_ok = true

instance (env : Env) (s : Lcd) : Decidable (Working env s) := by
  unfold Working; infer_instance

/-! ## The display controller's address counter

The claims on where data bytes land read the bus trace through this model of
the ST7565: a page-address-set command (`0xB0 .. 0xBF`) selects the page, the
column-address-set commands (`0x10 .. 0x1F` upper nibble, `0x00 .. 0x0F` lower
nibble) select the column, and the column advances by one with every data
byte. -/

/-- The page and column the controller will store the next data byte at. -/
structure Addr where
  page : Nat
  column : Nat
  deriving DecidableEq, Repr

/-- Effect of one bus byte on the address counter. -/
def Addr.step (a : Addr) : BusByte → Addr
  | BusByte.cmd b =>
    if b / 16 = 0xB then { a with page := b % 16 }
    else if b / 16 = 0x1 then { a with column := 16 * (b % 16) + a.column % 16 }
    else if b / 16 = 0x0 then { a with column := 16 * (a.column / 16) + b % 16 }
    else a
  | BusByte.data _ => { a with column := a.column + 1 }

/-- The address counter after a stretch of bus traffic. -/
def Addr.run (a : Addr) (bs : List BusByte) : Addr :=
  bs.foldl Addr.step a

/-- The display-memory writes a stretch of bus traffic performs, in order:
one triple (page, column, byte) for every data byte. -/
def Addr.writes : Addr → List BusByte → List (Nat × Nat × Nat)
  | _, [] => []
  | a, BusByte.cmd b :: bs => Addr.writes (a.step (BusByte.cmd b)) bs
  | a, BusByte.data b :: bs => (a.page, a.column, b) :: Addr.writes (a.step (BusByte.data b)) bs

/-- The address counter of the display behind the state `s`, counted from the
power-on address (page 0, column 0). -/
def addrOf (s : Lcd) : Addr :=
  Addr.run ⟨0, 0⟩ s.bus

/-! ## Text sessions -/

/-- One driver call of a text session: position the cursor, or put one byte. -/
inductive Call where
  | goto (bColumn bRow : Nat)
  | putc (c : Nat)
  deriving DecidableEq, Repr

/-- Run one call; `none` when `lcd_putc` reads outside the font table. -/
def Call.run (env : Env) : Call → Lcd → Option Lcd
  | Call.goto bColumn bRow, s => some (lcd_goto env bColumn bRow s).2
  | Call.putc c, s => lcd_putc env c s

/-- Run a sequence of calls, left to right. -/
def runCalls (env : Env) : List Call → Lcd → Option Lcd
  | [], s => some s
  | k :: ks, s =>
    match k.run env s with
    | none => none
    | some t => runCalls env ks t

/-- The calls of a plain text session: `lcd_goto` with any arguments, valid or
not, and `lcd_putc` on a printable byte (32 .. 126) or on the newline byte. -/
def Call.Plain : Call → Prop
  | Call.goto _ _ => True
  | Call.putc c => (32 ≤ c ∧ c ≤ 126) ∨ c = 10

/-- The stored cursor is in range and the display's address counter stands at
it: page `7 - gw_row`, column `gw_column`. -/
def InSync (s : Lcd) : Prop :=
  addrOf s = ⟨7 - s.gw_row, s.gw_column⟩ ∧ s.gw_row < 8 ∧ s.gw_column < 128

/-- The cursor range invariant of the standard build: `gw_row < 8` and
`gw_column < 128`. -/
def CursorInRange (s : Lcd) : Prop :=
  s.gw_row < 8 ∧ s.gw_column < 128

/-- Whether a bus byte is a display-data byte (sent with A0 high). -/
def BusByte.isData : BusByte → Bool
  | BusByte.cmd _ => false
  | BusByte.data _ => true

/-- Where the cursor stands after `m` printable characters put from (0, 0):
at (0, 0) for `m = 0`, else in text cell `(m - 1) mod 18` of text line
`(m - 1) div 18`, lines counted cyclically through the 8 rows. -/
def TextCursor (m : Nat) (s : Lcd) : Prop :=
  (m = 0 ∧ s.gw_column = 0 ∧ s.gw_row = 0)
    ∨ (1 ≤ m ∧ s.gw_column = 7 * ((m - 1) % 18 + 1) ∧ s.gw_row = ((m - 1) / 18) % 8)

/-- The glyph loop of `lcd_putc` as a build without bounds checking runs it:
a read at an index `p` outside `gca_font` yields the byte `past p` that
memory holds there, whatever it is. -/
def lcd_putc_glyph_past (env : Env) (past : Nat → Nat) : Nat → Nat → Lcd → Lcd
  | 0, _, s => s
  | i + 1, p, s =>
    lcd_putc_glyph_past env past i (p + 1) (lcd_data env ((gca_font[p]?).getD (past p)) s).2

/-- C function `lcd_putc(char c)` with the glyph loop of `lcd_putc_glyph_past`:
the same statements in the same order, and always a resulting state. -/
def lcd_putc_past (env : Env) (past : Nat → Nat) (c : Nat) (s : Lcd) : Lcd :=
  let data := (c % 256) &&& 0x7F
  if data < ST7565_LCD_PARAM_FONT_CHAR_MINVAL then
    if (data : Int) = ST7565_LCD_FMT_NEWINE then
      _lcd_process_putc_newline env s
    else if (data : Int) = ST7565_LCD_FMT_CURSOR env then
      lcd_data_loop env 0xFC ST7565_LCD_PARAM_FONT_CHARWIDTH s
    else s
  else
    let s1 := { s with gw_column := (s.gw_column + ST7565_LCD_PARAM_FONT_CHARWIDTH) % 65536 }
    let s2 :=
      if s1.gw_column ≥ ST7565_LCD_MAX_COLUMNS then
        let t := _lcd_process_putc_newline env s1
        { t with gw_column := (t.gw_column + ST7565_LCD_PARAM_FONT_CHARWIDTH) % 65536 }
      else s1
    let uoffset := ((data - ST7565_LCD_PARAM_FONT_CHAR_MINVAL) * ST7565_LCD_PARAM_FONT_WIDTH) % 4294967296
    lcd_data_loop env 0x00 (ST7565_LCD_PARAM_FONT_CHARWIDTH - ST7565_LCD_PARAM_FONT_WIDTH)
      (lcd_putc_glyph_past env past ST7565_LCD_PARAM_FONT_WIDTH uoffset s2)

/-! ## Basic facts -/

set_option maxRecDepth 20000 in
theorem gca_font_length : gca_font.length = 475 := by
  unfold gca_font; rfl

theorem lcd_cmd_working (env : Env) (b : Nat) (s : Lcd) (h : Working env s) :
    lcd_cmd env b s = (0, { s with pin_A0 := 0, bus := s.bus ++ [BusByte.cmd (b % 256)] }) := by
  obtain ⟨h1, h2, h3⟩ := h
  simp [lcd_cmd, gpioWrite, spiWrite, h1, h2, h3, LCD_A0]

theorem lcd_data_working (env : Env) (b : Nat) (s : Lcd) (h : Working env s) :
    lcd_data env b s = (0, { s with pin_A0 := 1, bus := s.bus ++ [BusByte.data (b % 256)] }) := by
  obtain ⟨h1, h2, h3⟩ := h
  simp [lcd_data, gpioWrite, spiWrite, h1, h2, h3, LCD_A0]

theorem lcd_cmd_globals (env : Env) (b : Nat) (s : Lcd) :
    (lcd_cmd env b s).2.gw_row = s.gw_row ∧ (lcd_cmd env b s).2.gw_column = s.gw_column
      ∧ (lcd_cmd env b s).2.gx_spihandle = s.gx_spihandle := by
  unfold lcd_cmd gpioWrite spiWrite
  simp only [LCD_A0, LCD_nRST]
  split_ifs <;> simp

theorem lcd_data_globals (env : Env) (b : Nat) (s : Lcd) :
    (lcd_data env b s).2.gw_row = s.gw_row ∧ (lcd_data env b s).2.gw_column = s.gw_column
      ∧ (lcd_data env b s).2.gx_spihandle = s.gx_spihandle := by
  unfold lcd_data gpioWrite spiWrite
  simp only [LCD_A0, LCD_nRST]
  split_ifs <;> simp

theorem page_byte_lt (r : Nat) : 0xB0 ||| (7 - r) < 256 := by
  have h : ∀ k, k < 8 → 0xB0 ||| k < 256 := by decide
  exact h (7 - r) (by omega)

theorem column_lower_lt (c : Nat) : c &&& 0xf < 256 :=
  lt_of_le_of_lt Nat.and_le_right (by decide)

theorem column_upper_lt (c : Nat) : 0x10 ||| ((c >>> 4) &&& 0x7) < 256 := by
  have h : ∀ k, k < 8 → 0x10 ||| k < 256 := by decide
  exact h _ (lt_of_le_of_lt Nat.and_le_right (by decide))

theorem working_of_handle (env : Env) (s t : Lcd) (h : Working env s)
    (ht : t.gx_spihandle = s.gx_spihandle) : Working env t :=
  ⟨ht.trans h.1, h.2.1, h.2.2⟩

/-- On the standard build with a working transport, a valid `lcd_goto` returns
0, stores the position, leaves A0 low and sends the three addressing
commands. -/
theorem lcd_goto_working (env : Env) (hv : env.ADAFRUIT_ST7565_LCD = false) (column row : Nat)
    (s : Lcd) (hw : Working env s) (hc : column < 128) (hr : row < 8) :
    lcd_goto env column row s =
      (0, { s with gw_row := row, gw_column := column, pin_A0 := 0,
                   bus := s.bus ++ [BusByte.cmd (0xB0 ||| (7 - row)),
                                    BusByte.cmd (0x00 ||| (column &&& 0x0F)),
                                    BusByte.cmd (0x10 ||| ((column >>> 4) &&& 0x07))] }) := by
  have hnc : ¬ 128 ≤ column := by omega
  have hnr : ¬ 8 ≤ row := by omega
  simp only [lcd_goto, hv, ST7565_LCD_MAX_COLUMNS, ST7565_LCD_MAX_ROWS, hnc, hnr, if_false,
    ge_iff_le, Bool.false_eq_true,
    ST7565_LCD_CMD_SET_PAGE, ST7565_LCD_CMD_SET_COLUMN_LOWER, ST7565_LCD_CMD_SET_COLUMN_UPPER]
  simp [lcd_cmd_working, Working, hw.1, hw.2.1, hw.2.2, Nat.mod_eq_of_lt (page_byte_lt row),
    Nat.mod_eq_of_lt (column_lower_lt column), Nat.mod_eq_of_lt (column_upper_lt column)]

/-! ## Cursor positioning -/

/-- Claim C1: on the standard build, for every column below 128 and every row
below 8, `lcd_goto` returns 0 and the stored cursor afterwards is exactly
(column, row), whatever the state was before. -/
theorem lcd_goto_valid_stores_cursor (env : Env) (hv : env.ADAFRUIT_ST7565_LCD = false)
    (column row : Nat) (s : Lcd) (hc : column < 128) (hr : row < 8) :
    (lcd_goto env column row s).1 = 0
      ∧ (lcd_goto env column row s).2.gw_column = column
      ∧ (lcd_goto env column row s).2.gw_row = row := by
  have hnc : ¬ 128 ≤ column := by omega
  have hnr : ¬ 8 ≤ row := by omega
  simp only [lcd_goto, hv, ST7565_LCD_MAX_COLUMNS, ST7565_LCD_MAX_ROWS, hnc, hnr, if_false,
    ge_iff_le, Bool.false_eq_true]
  simp [lcd_cmd_globals]

theorem lcd_goto_valid_stores_cursor_witness :
    (lcd_goto ⟨false, true, true, false⟩ 127 7 ⟨0, 3, 50, 1, 1, []⟩).1 = 0
      ∧ (lcd_goto ⟨false, true, true, false⟩ 127 7 ⟨0, 3, 50, 1, 1, []⟩).2.gw_column = 127
      ∧ (lcd_goto ⟨false, true, true, false⟩ 127 7 ⟨0, 3, 50, 1, 1, []⟩).2.gw_row = 7 :=
  lcd_goto_valid_stores_cursor ⟨false, true, true, false⟩ rfl 127 7 ⟨0, 3, 50, 1, 1, []⟩
    (by decide) (by decide)

/-- Claim C2: on the standard build, `lcd_goto` with column at least 128 or row
at least 8 fails: it returns -61 when the column is at least 128 (whatever the
row) and -62 when the column is below 128 and the row at least 8; either way
the state is returned as it was, so the stored cursor is unchanged and nothing
is sent on the bus. -/
theorem lcd_goto_invalid_rejected (env : Env) (hv : env.ADAFRUIT_ST7565_LCD = false)
    (column row : Nat) (s : Lcd) (h : column ≥ 128 ∨ row ≥ 8) :
    (column ≥ 128 → (lcd_goto env column row s).1 = -61)
      ∧ (column < 128 → row ≥ 8 → (lcd_goto env column row s).1 = -62)
      ∧ (lcd_goto env column row s).1 ≠ 0
      ∧ (lcd_goto env column row s).2 = s
      ∧ (lcd_goto env column row s).2.gw_row = s.gw_row
      ∧ (lcd_goto env column row s).2.gw_column = s.gw_column
      ∧ (lcd_goto env column row s).2.bus = s.bus := by
  by_cases hc : column ≥ 128
  · simp [lcd_goto, ST7565_LCD_MAX_COLUMNS, hc]
  · have hr : row ≥ 8 := by omega
    have hc2 : column < 128 := by omega
    simp [lcd_goto, hv, ST7565_LCD_MAX_COLUMNS, ST7565_LCD_MAX_ROWS, hc, hr, hc2]

theorem lcd_goto_invalid_rejected_witness :
    (200 ≥ 128 → (lcd_goto ⟨false, true, true, false⟩ 200 3 ⟨0, 2, 14, 1, 1, [BusByte.data 5]⟩).1 = -61)
      ∧ (lcd_goto ⟨false, true, true, false⟩ 200 3 ⟨0, 2, 14, 1, 1, [BusByte.data 5]⟩).2.bus
          = [BusByte.data 5] :=
  have h := lcd_goto_invalid_rejected ⟨false, true, true, false⟩ rfl 200 3
    ⟨0, 2, 14, 1, 1, [BusByte.data 5]⟩ (Or.inl (by decide))
  ⟨h.1, h.2.2.2.2.2.2⟩

/-- Claim C3: on the standard build with a working transport, for every column
below 128 and row below 8, `lcd_goto` sends exactly three command bytes and no
data byte, in this order: `0xB0 | (7 - row)`, then `0x00 | (column & 0x0F)`,
then `0x10 | ((column >> 4) & 0x07)`. -/
theorem lcd_goto_sends_page_lower_upper (env : Env) (hv : env.ADAFRUIT_ST7565_LCD = false)
    (column row : Nat) (s : Lcd) (hw : Working env s) (hc : column < 128) (hr : row < 8) :
    (lcd_goto env column row s).2.bus =
      s.bus ++ [BusByte.cmd (0xB0 ||| (7 - row)),
                BusByte.cmd (0x00 ||| (column &&& 0x0F)),
                BusByte.cmd (0x10 ||| ((column >>> 4) &&& 0x07))] := by
  rw [lcd_goto_working env hv column row s hw hc hr]

theorem lcd_goto_sends_page_lower_upper_witness :
    (lcd_goto ⟨false, true, true, false⟩ 100 2 ⟨0, 0, 0, 1, 1, []⟩).2.bus =
      [] ++ [BusByte.cmd (0xB0 ||| (7 - 2)), BusByte.cmd (0x00 ||| (100 &&& 0x0F)),
             BusByte.cmd (0x10 ||| ((100 >>> 4) &&& 0x07))] :=
  lcd_goto_sends_page_lower_upper ⟨false, true, true, false⟩ rfl 100 2 ⟨0, 0, 0, 1, 1, []⟩
    (by decide) (by decide) (by decide)

/-! ## Frame clear -/

theorem lcd_data_loop_working (env : Env) (b n : Nat) (s : Lcd) (hw : Working env s)
    (hn : 0 < n) :
    lcd_data_loop env b n s =
      { s with pin_A0 := 1, bus := s.bus ++ List.replicate n (BusByte.data (b % 256)) } := by
  induction n generalizing s with
  | zero => omega
  | succ n ih =>
    rw [lcd_data_loop, lcd_data_working env b s hw]
    cases n with
    | zero => simp [lcd_data_loop]
    | succ m =>
      refine (ih _ ?_ (by omega)).trans ?_
      · exact working_of_handle env s _ hw rfl
      · simp [List.replicate_succ]

theorem lcd_clear_loop_working (env : Env) (hv : env.ADAFRUIT_ST7565_LCD = false) (n r : Nat)
    (s : Lcd) (hw : Working env s) (hn : r + n ≤ 8) :
    lcd_clear_loop env n r s =
      (0, { s with gw_row := 0, gw_column := 0, pin_A0 := 0,
                   bus := s.bus ++ (List.range' r n).flatMap (fun k =>
                       [BusByte.cmd (0xB0 ||| (7 - k)), BusByte.cmd 0x00, BusByte.cmd 0x10]
                         ++ List.replicate 128 (BusByte.data 0x00))
                     ++ [BusByte.cmd (0xB0 ||| 7), BusByte.cmd 0x00, BusByte.cmd 0x10] }) := by
  induction n generalizing r s with
  | zero =>
    rw [lcd_clear_loop, lcd_goto_working env hv 0 0 s hw (by decide) (by decide)]
    simp
  | succ n ih =>
    rw [lcd_clear_loop, lcd_goto_working env hv 0 r s hw (by decide) (by omega)]
    simp only [ne_eq, not_true_eq_false, if_false, ST7565_LCD_MAX_COLUMNS]
    rw [lcd_data_loop_working env 0 128 _ ?_ (by decide), ih (r + 1) _ ?_ (by omega)]
    · simp [List.range'_succ, List.flatMap_cons]
    all_goals exact working_of_handle env s _ hw rfl

theorem lcd_clear_working (env : Env) (hv : env.ADAFRUIT_ST7565_LCD = false) (s : Lcd)
    (hw : Working env s) :
    lcd_clear env s =
      (0, { s with gw_row := 0, gw_column := 0, pin_A0 := 0,
                   bus := s.bus ++ (List.range 8).flatMap (fun k =>
                       [BusByte.cmd (0xB0 ||| (7 - k)), BusByte.cmd 0x00, BusByte.cmd 0x10]
                         ++ List.replicate 128 (BusByte.data 0x00))
                     ++ [BusByte.cmd (0xB0 ||| 7), BusByte.cmd 0x00, BusByte.cmd 0x10] }) := by
  rw [lcd_clear, hv]
  simp only [Bool.false_eq_true, if_false, ST7565_LCD_MAX_ROWS]
  rw [lcd_clear_loop_working env hv 8 0 s hw (by decide), List.range_eq_range']

theorem Addr.run_append (a : Addr) (xs ys : List BusByte) :
    Addr.run a (xs ++ ys) = Addr.run (Addr.run a xs) ys := by
  simp [Addr.run, List.foldl_append]

theorem Addr.writes_append (a : Addr) (xs ys : List BusByte) :
    Addr.writes a (xs ++ ys) = Addr.writes a xs ++ Addr.writes (Addr.run a xs) ys := by
  induction xs generalizing a with
  | nil => simp [Addr.writes, Addr.run]
  | cons x xs ih =>
    cases x with
    | cmd b => simp [Addr.writes, Addr.run, ih]
    | data b => simp [Addr.writes, Addr.run, ih]

/-- The three addressing commands of a valid position set the address counter
to page `7 - row` and that column, whatever it was before. -/
theorem Addr.run_addressing (a : Addr) (column row : Nat) (hc : column < 128) (hr : row < 8) :
    Addr.run a [BusByte.cmd (0xB0 ||| (7 - row)), BusByte.cmd (0x00 ||| (column &&& 0x0F)),
        BusByte.cmd (0x10 ||| ((column >>> 4) &&& 0x07))] = ⟨7 - row, column⟩ := by
  have h1 : ∀ k, k < 8 → (0xB0 ||| (7 - k)) / 16 = 0xB ∧ (0xB0 ||| (7 - k)) % 16 = 7 - k := by
    decide
  have h2 : ∀ c, c < 128 → (0x00 ||| (c &&& 0x0F)) / 16 = 0 ∧
      (0x10 ||| ((c >>> 4) &&& 0x07)) / 16 = 1 ∧
      16 * ((0x10 ||| ((c >>> 4) &&& 0x07)) % 16) + (0x00 ||| (c &&& 0x0F)) % 16 = c := by
    decide
  obtain ⟨p1, p2⟩ := h1 row hr
  obtain ⟨c1, c2, c3⟩ := h2 column hc
  simp only [Addr.run, List.foldl_cons, List.foldl_nil, Addr.step, p1, p2, c1, c2,
    if_true]
  simp only [Nat.reduceEqDiff, if_false, if_true, Addr.mk.injEq, true_and]
  omega

theorem Addr.writes_data (a : Addr) (b n : Nat) :
    Addr.writes a (List.replicate n (BusByte.data b))
      = (List.range n).map (fun k => (a.page, a.column + k, b)) := by
  induction n generalizing a with
  | zero => simp [Addr.writes]
  | succ n ih =>
    rw [List.replicate_succ, Addr.writes, ih, List.range_succ_eq_map]
    simp [Addr.step, Nat.add_assoc, Nat.add_comm 1]

theorem Addr.run_data (a : Addr) (b n : Nat) :
    Addr.run a (List.replicate n (BusByte.data b)) = ⟨a.page, a.column + n⟩ := by
  induction n generalizing a with
  | zero => simp [Addr.run]
  | succ n ih =>
    have h := ih (a.step (BusByte.data b))
    simp only [Addr.run] at h
    simp only [List.replicate_succ, Addr.run, List.foldl_cons, h]
    simp [Addr.step, Nat.add_assoc, Nat.add_comm 1]

theorem Addr.writes_addressing (a : Addr) (x y z : Nat) :
    Addr.writes a [BusByte.cmd x, BusByte.cmd y, BusByte.cmd z] = [] := by
  simp [Addr.writes]

/-- One row of the clear sweep, from any address: the 128 zero bytes land in
columns 0 to 127 of page `7 - k`. -/
theorem Addr.clear_row (a : Addr) (k : Nat) (hk : k < 8) :
    Addr.writes a ([BusByte.cmd (0xB0 ||| (7 - k)), BusByte.cmd 0x00, BusByte.cmd 0x10]
        ++ List.replicate 128 (BusByte.data 0x00))
      = (List.range 128).map (fun c => (7 - k, c, 0))
    ∧ Addr.run a ([BusByte.cmd (0xB0 ||| (7 - k)), BusByte.cmd 0x00, BusByte.cmd 0x10]
        ++ List.replicate 128 (BusByte.data 0x00)) = ⟨7 - k, 128⟩ := by
  have h : Addr.run a [BusByte.cmd (0xB0 ||| (7 - k)), BusByte.cmd 0x00, BusByte.cmd 0x10]
      = ⟨7 - k, 0⟩ := Addr.run_addressing a 0 k (by decide) hk
  constructor
  · rw [Addr.writes_append, Addr.writes_addressing, h, Addr.writes_data]
    simp
  · rw [Addr.run_append, h, Addr.run_data]

theorem Addr.clear_rows (a : Addr) (n r : Nat) (hn : r + n ≤ 8) :
    Addr.writes a ((List.range' r n).flatMap (fun k =>
        [BusByte.cmd (0xB0 ||| (7 - k)), BusByte.cmd 0x00, BusByte.cmd 0x10]
          ++ List.replicate 128 (BusByte.data 0x00)))
      = (List.range' r n).flatMap (fun k => (List.range 128).map (fun c => (7 - k, c, 0))) := by
  induction n generalizing r a with
  | zero => simp [Addr.writes]
  | succ n ih =>
    rw [List.range'_succ, List.flatMap_cons, List.flatMap_cons, Addr.writes_append,
      (Addr.clear_row a r (by omega)).1, ih _ (r + 1) (by omega)]

theorem clear_cells_nodup :
    ((List.range 8).flatMap (fun k => (List.range 128).map (fun c => (7 - k, c, 0)))).Nodup := by
  rw [List.nodup_flatMap]
  constructor
  · intro k _
    refine List.Nodup.map ?_ (List.nodup_range 128)
    intro c d h
    simpa using h
  · refine List.Pairwise.imp_of_mem ?_ (List.pairwise_lt_range 8)
    intro i j hi hj hij
    rw [List.mem_range] at hi hj
    simp only [Function.onFun]
    intro x hx hy
    rw [List.mem_map] at hx hy
    obtain ⟨c, _, rfl⟩ := hx
    obtain ⟨d, _, hd⟩ := hy
    simp only [Prod.mk.injEq] at hd
    omega

theorem clear_cells_mem (p c : Nat) (hp : p < 8) (hc : c < 128) :
    (p, c, 0) ∈ (List.range 8).flatMap (fun k => (List.range 128).map (fun c => (7 - k, c, 0))) := by
  rw [List.mem_flatMap]
  refine ⟨7 - p, List.mem_range.mpr (by omega), ?_⟩
  rw [List.mem_map]
  refine ⟨c, List.mem_range.mpr hc, ?_⟩
  simp only [Prod.mk.injEq, and_true]
  omega

/-- Claim C4: on the standard build with a working transport and from any
cursor state, `lcd_clear` returns 0, leaves the stored cursor at (0, 0), and
its bus output is, for each row r = 0 .. 7 in increasing order, the three
addressing commands of position (0, r) followed by 128 data bytes of value 0,
and finally the three addressing commands of position (0, 0). Read through the
controller's address counter, the data bytes land in page `7 - r`, columns 0
to 127, for r = 0 .. 7: 1024 data bytes in total, and each of the 8 x 128
cells receives a zero byte exactly once. -/
theorem lcd_clear_sweeps_every_cell_once (env : Env) (hv : env.ADAFRUIT_ST7565_LCD = false)
    (s : Lcd) (hw : Working env s) :
    (lcd_clear env s).1 = 0
      ∧ (lcd_clear env s).2.gw_column = 0
      ∧ (lcd_clear env s).2.gw_row = 0
      ∧ (lcd_clear env s).2.bus =
          s.bus ++ (List.range 8).flatMap (fun r =>
              [BusByte.cmd (0xB0 ||| (7 - r)), BusByte.cmd 0x00, BusByte.cmd 0x10]
                ++ List.replicate 128 (BusByte.data 0x00))
            ++ [BusByte.cmd (0xB0 ||| (7 - 0)), BusByte.cmd 0x00, BusByte.cmd 0x10]
      ∧ Addr.writes (addrOf s) ((lcd_clear env s).2.bus.drop s.bus.length) =
          (List.range 8).flatMap (fun r => (List.range 128).map (fun c => (7 - r, c, 0)))
      ∧ (Addr.writes (addrOf s) ((lcd_clear env s).2.bus.drop s.bus.length)).length = 1024
      ∧ (∀ w ∈ Addr.writes (addrOf s) ((lcd_clear env s).2.bus.drop s.bus.length), w.2.2 = 0)
      ∧ ∀ p c, p < 8 → c < 128 →
          (Addr.writes (addrOf s) ((lcd_clear env s).2.bus.drop s.bus.length)).countP
            (fun w => decide (w.1 = p ∧ w.2.1 = c)) = 1 := by
  have hw8 : ∀ a : Addr, Addr.writes a ((List.range 8).flatMap (fun r =>
              [BusByte.cmd (0xB0 ||| (7 - r)), BusByte.cmd 0x00, BusByte.cmd 0x10]
                ++ List.replicate 128 (BusByte.data 0x00))
            ++ [BusByte.cmd (0xB0 ||| 7), BusByte.cmd 0x00, BusByte.cmd 0x10])
        = (List.range 8).flatMap (fun r => (List.range 128).map (fun c => (7 - r, c, 0))) := by
    intro a
    rw [Addr.writes_append, Addr.writes_addressing, List.append_nil, List.range_eq_range']
    exact Addr.clear_rows a 8 0 (by decide)
  have hd : (lcd_clear env s).2.bus.drop s.bus.length =
      (List.range 8).flatMap (fun r =>
              [BusByte.cmd (0xB0 ||| (7 - r)), BusByte.cmd 0x00, BusByte.cmd 0x10]
                ++ List.replicate 128 (BusByte.data 0x00))
            ++ [BusByte.cmd (0xB0 ||| 7), BusByte.cmd 0x00, BusByte.cmd 0x10] := by
    rw [lcd_clear_working env hv s hw]
    simp only [List.append_assoc, List.drop_left]
  rw [hd, hw8]
  have hz : ∀ w ∈ (List.range 8).flatMap (fun r => (List.range 128).map (fun c => (7 - r, c, 0))),
      w.2.2 = 0 := by
    intro w hmem
    rw [List.mem_flatMap] at hmem
    obtain ⟨r, _, hr⟩ := hmem
    rw [List.mem_map] at hr
    obtain ⟨c, _, rfl⟩ := hr
    rfl
  refine ⟨?_, ?_, ?_, ?_, rfl, ?_, hz, ?_⟩
  · rw [lcd_clear_working env hv s hw]
  · rw [lcd_clear_working env hv s hw]
  · rw [lcd_clear_working env hv s hw]
  · rw [lcd_clear_working env hv s hw]
  · simp [List.length_flatMap, Function.comp_def]
  · intro p c hp hc
    have h1 := List.count_eq_one_of_mem clear_cells_nodup (clear_cells_mem p c hp hc)
    rw [← h1]
    refine List.countP_congr ?_
    intro w hmem
    have h0 := hz w hmem
    obtain ⟨a, b, d⟩ := w
    simp only at h0
    subst h0
    change decide (a = p ∧ b = c) = true ↔ decide ((a, b, 0) = (p, c, 0)) = true
    simp

theorem lcd_clear_sweeps_every_cell_once_witness :
    (lcd_clear ⟨false, true, true, false⟩ ⟨0, 5, 77, 1, 1, []⟩).1 = 0
      ∧ (lcd_clear ⟨false, true, true, false⟩ ⟨0, 5, 77, 1, 1, []⟩).2.gw_column = 0
      ∧ (lcd_clear ⟨false, true, true, false⟩ ⟨0, 5, 77, 1, 1, []⟩).2.gw_row = 0 :=
  have h := lcd_clear_sweeps_every_cell_once ⟨false, true, true, false⟩ rfl
    ⟨0, 5, 77, 1, 1, []⟩ (by decide)
  ⟨h.1, h.2.1, h.2.2.1⟩

/-! ## Character output -/

set_option maxRecDepth 20000 in
theorem gca_font_bytes : ∀ x ∈ gca_font, x < 256 := by
  unfold gca_font; decide

theorem gca_font_slice (p i : Nat) (h : p + (i + 1) ≤ 475) :
    gca_font[p]? = some (gca_font.getD p 0)
      ∧ gca_font.getD p 0 % 256 = gca_font.getD p 0
      ∧ (gca_font.drop p).take (i + 1) = gca_font.getD p 0 :: (gca_font.drop (p + 1)).take i := by
  have hp : p < gca_font.length := by rw [gca_font_length]; omega
  have hg : gca_font.getD p 0 = gca_font[p] := by
    rw [List.getD_eq_getElem?_getD, List.getElem?_eq_getElem hp]; rfl
  refine ⟨?_, ?_, ?_⟩
  · rw [hg, List.getElem?_eq_getElem hp]
  · rw [hg]
    exact Nat.mod_eq_of_lt (gca_font_bytes _ (List.getElem_mem hp))
  · rw [hg, List.drop_eq_getElem_cons hp, List.take_succ_cons]

/-- With a working transport the glyph loop sends the `i` table bytes from
index `p` on as data bytes, provided they lie inside the table. -/
theorem lcd_putc_glyph_working (env : Env) (i p : Nat) (s : Lcd) (hw : Working env s)
    (hi : 0 < i) (hp : p + i ≤ 475) :
    lcd_putc_glyph env i p s =
      some { s with pin_A0 := 1,
                    bus := s.bus ++ ((gca_font.drop p).take i).map BusByte.data } := by
  induction i generalizing p s with
  | zero => omega
  | succ i ih =>
    obtain ⟨h1, h2, h3⟩ := gca_font_slice p i hp
    rw [lcd_putc_glyph, h1]
    simp only []
    rw [lcd_data_working env _ s hw, h2, h3]
    cases i with
    | zero => simp [lcd_putc_glyph]
    | succ j =>
      refine (ih (p + 1) _ ?_ (by omega) (by omega)).trans ?_
      · exact working_of_handle env s _ hw rfl
      · simp

theorem glyph_slice_length (d : Nat) (hd : d ≤ 126) :
    ((gca_font.drop ((d - 32) * 5)).take 5).length = 5 := by
  rw [List.length_take, List.length_drop, gca_font_length]
  omega

/-- A printable character at a column up to 120: no wrap, the glyph and two
spacing bytes are sent, the stored column advances by 7. -/
theorem lcd_putc_printable_nowrap (env : Env) (c : Nat) (s : Lcd) (hw : Working env s)
    (hc : c < 256) (hlo : 32 ≤ c &&& 0x7F) (hhi : c &&& 0x7F ≤ 126) (hcol : s.gw_column ≤ 120) :
    lcd_putc env c s =
      some { s with gw_column := s.gw_column + 7, pin_A0 := 1,
                    bus := s.bus ++ ((gca_font.drop (((c &&& 0x7F) - 32) * 5)).take 5).map BusByte.data
                      ++ [BusByte.data 0x00, BusByte.data 0x00] } := by
  have h1 : ¬ (c &&& 0x7F) < 32 := by omega
  have h2 : (s.gw_column + 7) % 65536 = s.gw_column + 7 := by omega
  have h3 : ¬ 128 ≤ s.gw_column + 7 := by omega
  have h4 : ((c &&& 0x7F) - 32) * 5 % 4294967296 = ((c &&& 0x7F) - 32) * 5 := by omega
  simp only [lcd_putc, Nat.mod_eq_of_lt hc, ST7565_LCD_PARAM_FONT_CHAR_MINVAL, h1, if_false,
    ST7565_LCD_PARAM_FONT_CHARWIDTH, ST7565_LCD_PARAM_FONT_WIDTH, ST7565_LCD_MAX_COLUMNS,
    ge_iff_le, h2, h3, h4]
  rw [lcd_putc_glyph_working env 5 _ _ ?_ (by decide) (by omega)]
  · simp only []
    rw [lcd_data_loop_working env 0 2 _ ?_ (by decide)]
    · simp
    · exact working_of_handle env s _ hw rfl
  · exact working_of_handle env s _ hw rfl

/-- The newline step on the standard build with a working transport: the row
advances cyclically through 0 .. 7, the column becomes 0, and the three
addressing commands of the new position are sent. -/
theorem newline_working (env : Env) (hv : env.ADAFRUIT_ST7565_LCD = false) (s : Lcd)
    (hw : Working env s) (hr : s.gw_row < 8) :
    _lcd_process_putc_newline env s =
      { s with gw_row := (s.gw_row + 1) % 8, gw_column := 0, pin_A0 := 0,
               bus := s.bus ++ [BusByte.cmd (0xB0 ||| (7 - (s.gw_row + 1) % 8)),
                                BusByte.cmd 0x00, BusByte.cmd 0x10] } := by
  have h1 : (s.gw_row + 1) % 65536 = s.gw_row + 1 := by omega
  simp only [_lcd_process_putc_newline, h1, ST7565_LCD_MAX_ROWS, ge_iff_le]
  by_cases h7 : 8 ≤ s.gw_row + 1
  · have h8 : (s.gw_row + 1) % 8 = 0 := by omega
    simp only [h7, if_true, h8]
    rw [lcd_goto_working env hv 0 (0 % 256) _ ?_ (by decide) (by decide)]
    · simp
    · exact working_of_handle env s _ hw rfl
  · have h8 : (s.gw_row + 1) % 8 = s.gw_row + 1 := by omega
    have h9 : (s.gw_row + 1) % 256 = s.gw_row + 1 := by omega
    simp only [h7, if_false, h8, h9]
    rw [lcd_goto_working env hv 0 (s.gw_row + 1) _ ?_ (by decide) (by omega)]
    · simp
    · exact working_of_handle env s _ hw rfl

/-- A printable character at a column from 121 on: one newline step, then the
glyph and two spacing bytes at the start of the new row. -/
theorem lcd_putc_printable_wrap (env : Env) (hv : env.ADAFRUIT_ST7565_LCD = false) (c : Nat)
    (s : Lcd) (hw : Working env s) (hc : c < 256) (hlo : 32 ≤ c &&& 0x7F)
    (hhi : c &&& 0x7F ≤ 126) (hcol : 121 ≤ s.gw_column) (hcol2 : s.gw_column < 128)
    (hr : s.gw_row < 8) :
    lcd_putc env c s =
      some { s with gw_row := (s.gw_row + 1) % 8, gw_column := 7, pin_A0 := 1,
                    bus := s.bus ++ [BusByte.cmd (0xB0 ||| (7 - (s.gw_row + 1) % 8)),
                                     BusByte.cmd 0x00, BusByte.cmd 0x10]
                      ++ ((gca_font.drop (((c &&& 0x7F) - 32) * 5)).take 5).map BusByte.data
                      ++ [BusByte.data 0x00, BusByte.data 0x00] } := by
  have h1 : ¬ (c &&& 0x7F) < 32 := by omega
  have h2 : (s.gw_column + 7) % 65536 = s.gw_column + 7 := by omega
  have h3 : 128 ≤ s.gw_column + 7 := by omega
  have h4 : ((c &&& 0x7F) - 32) * 5 % 4294967296 = ((c &&& 0x7F) - 32) * 5 := by omega
  simp only [lcd_putc, Nat.mod_eq_of_lt hc, ST7565_LCD_PARAM_FONT_CHAR_MINVAL, h1, if_false,
    ST7565_LCD_PARAM_FONT_CHARWIDTH, ST7565_LCD_PARAM_FONT_WIDTH, ST7565_LCD_MAX_COLUMNS,
    ge_iff_le, h2, h3, h4, if_true]
  rw [newline_working env hv _ ?_ ?_]
  · simp only []
    rw [lcd_putc_glyph_working env 5 _ _ ?_ (by decide) (by omega)]
    · simp only []
      rw [lcd_data_loop_working env 0 2 _ ?_ (by decide)]
      · simp
      · exact working_of_handle env s _ hw rfl
    · exact working_of_handle env s _ hw rfl
  · exact working_of_handle env s _ hw rfl
  · exact hr

/-- The newline byte: only the newline step is performed. -/
theorem lcd_putc_newline (env : Env) (s : Lcd) :
    lcd_putc env 10 s = some (_lcd_process_putc_newline env s) := by
  have h : (10 % 256) &&& 0x7F = 10 := by decide
  simp only [lcd_putc, h]
  simp [ST7565_LCD_PARAM_FONT_CHAR_MINVAL, ST7565_LCD_FMT_NEWINE]

/-- Claim C5: with a working transport, for every byte `c` whose 7-bit value
lies in 32 .. 126 and every cursor with column at most 120, `lcd_putc` returns,
sends no command byte and exactly 7 data bytes (the 5 bytes of `gca_font` at
offsets `((c & 0x7F) - 32) * 5` to `+ 4` in order, then two zero bytes) and
moves the cursor from (col, row) to (col + 7, row). In particular `'A'` from
(0, 0) sends 0x3E, 0x48, 0x88, 0x48, 0x3E, 0x00, 0x00 and leaves the cursor at
(7, 0). -/
theorem lcd_putc_printable_sends_glyph (env : Env) (c : Nat) (s : Lcd) (hw : Working env s)
    (hc : c < 256) (hlo : 32 ≤ c &&& 0x7F) (hhi : c &&& 0x7F ≤ 126) (hcol : s.gw_column ≤ 120) :
    ∃ t, lcd_putc env c s = some t
      ∧ t.bus = s.bus
          ++ ((gca_font.drop (((c &&& 0x7F) - 32) * 5)).take 5).map BusByte.data
          ++ [BusByte.data 0x00, BusByte.data 0x00]
      ∧ ((gca_font.drop (((c &&& 0x7F) - 32) * 5)).take 5).length = 5
      ∧ t.gw_column = s.gw_column + 7
      ∧ t.gw_row = s.gw_row
      ∧ (c = 65 → s.gw_column = 0 → s.gw_row = 0 →
          t.bus = s.bus ++ [BusByte.data 0x3E, BusByte.data 0x48, BusByte.data 0x88,
              BusByte.data 0x48, BusByte.data 0x3E, BusByte.data 0x00, BusByte.data 0x00]
            ∧ t.gw_column = 7 ∧ t.gw_row = 0) := by
  refine ⟨_, lcd_putc_printable_nowrap env c s hw hc hlo hhi hcol, rfl,
    glyph_slice_length _ hhi, rfl, rfl, ?_⟩
  intro hA h0 hr0
  subst hA
  have hs : (gca_font.drop (((65 &&& 0x7F) - 32) * 5)).take 5 = [0x3E, 0x48, 0x88, 0x48, 0x3E] := by
    unfold gca_font; decide
  simp [hs, h0, hr0]

theorem lcd_putc_printable_sends_glyph_witness :
    ∃ t, lcd_putc ⟨false, true, true, false⟩ 65 ⟨0, 0, 0, 0, 1, []⟩ = some t
      ∧ t.bus = [BusByte.data 0x3E, BusByte.data 0x48, BusByte.data 0x88,
              BusByte.data 0x48, BusByte.data 0x3E, BusByte.data 0x00, BusByte.data 0x00]
      ∧ t.gw_column = 7 ∧ t.gw_row = 0 :=
  have ⟨t, h1, _, _, _, _, h6⟩ := lcd_putc_printable_sends_glyph ⟨false, true, true, false⟩ 65
    ⟨0, 0, 0, 0, 1, []⟩ (by decide) (by decide) (by decide) (by decide) (by decide)
  ⟨t, h1, h6 rfl rfl rfl⟩

/-- Claim C6: on the standard build with a working transport, for every row
below 8 and every cursor column from 121 to 127 (so also 128 - 7 + 1 = 122),
`lcd_putc` of a printable character performs exactly one newline wrap before
the glyph is drawn: it sends the three addressing commands of position
(0, (row + 1) mod 8), then the 7 glyph and spacing data bytes, and leaves the
cursor at (7, (row + 1) mod 8). For a column up to 120 no wrap occurs: only
the 7 data bytes are sent and the row is kept. -/
theorem lcd_putc_wraps_once_near_right_edge (env : Env) (hv : env.ADAFRUIT_ST7565_LCD = false)
    (c : Nat) (s : Lcd) (hw : Working env s) (hc : c < 256) (hlo : 32 ≤ c &&& 0x7F)
    (hhi : c &&& 0x7F ≤ 126) (hr : s.gw_row < 8) :
    (121 ≤ s.gw_column → s.gw_column < 128 →
      ∃ t, lcd_putc env c s = some t
        ∧ t.bus = s.bus
            ++ [BusByte.cmd (0xB0 ||| (7 - (s.gw_row + 1) % 8)), BusByte.cmd 0x00, BusByte.cmd 0x10]
            ++ ((gca_font.drop (((c &&& 0x7F) - 32) * 5)).take 5).map BusByte.data
            ++ [BusByte.data 0x00, BusByte.data 0x00]
        ∧ ((gca_font.drop (((c &&& 0x7F) - 32) * 5)).take 5).length = 5
        ∧ t.gw_column = 7
        ∧ t.gw_row = (s.gw_row + 1) % 8)
    ∧ (s.gw_column ≤ 120 →
      ∃ t, lcd_putc env c s = some t
        ∧ t.bus = s.bus
            ++ ((gca_font.drop (((c &&& 0x7F) - 32) * 5)).take 5).map BusByte.data
            ++ [BusByte.data 0x00, BusByte.data 0x00]
        ∧ t.gw_column = s.gw_column + 7
        ∧ t.gw_row = s.gw_row) := by
  constructor
  · intro h1 h2
    exact ⟨_, lcd_putc_printable_wrap env hv c s hw hc hlo hhi h1 h2 hr, rfl,
      glyph_slice_length _ hhi, rfl, rfl⟩
  · intro h1
    exact ⟨_, lcd_putc_printable_nowrap env c s hw hc hlo hhi h1, rfl, rfl, rfl⟩

theorem lcd_putc_wraps_once_near_right_edge_witness :
    ∃ t, lcd_putc ⟨false, true, true, false⟩ 65 ⟨0, 7, 122, 0, 1, []⟩ = some t
      ∧ t.bus = []
          ++ [BusByte.cmd (0xB0 ||| (7 - (7 + 1) % 8)), BusByte.cmd 0x00, BusByte.cmd 0x10]
          ++ ((gca_font.drop (((65 &&& 0x7F) - 32) * 5)).take 5).map BusByte.data
          ++ [BusByte.data 0x00, BusByte.data 0x00]
      ∧ ((gca_font.drop (((65 &&& 0x7F) - 32) * 5)).take 5).length = 5
      ∧ t.gw_column = 7
      ∧ t.gw_row = (7 + 1) % 8 :=
  (lcd_putc_wraps_once_near_right_edge ⟨false, true, true, false⟩ rfl 65
    ⟨0, 7, 122, 0, 1, []⟩ (by decide) (by decide) (by decide) (by decide) (by decide)).1
    (by decide) (by decide)

/-- Claim C8: on the standard build with a working transport, for every cursor
(col, row) with col below 128 and row below 8, `lcd_putc('\n')` sets the cursor
to (0, (row + 1) mod 8), so column 0 whatever col was and row 7 wraps to row 0,
and sends exactly the three addressing commands of that new position and no
data byte. -/
theorem lcd_putc_newline_moves_to_next_row_start (env : Env)
    (hv : env.ADAFRUIT_ST7565_LCD = false) (s : Lcd) (hw : Working env s)
    (hcol : s.gw_column < 128) (hr : s.gw_row < 8) :
    ∃ t, lcd_putc env 10 s = some t
      ∧ t.gw_column = 0
      ∧ t.gw_row = (s.gw_row + 1) % 8
      ∧ (s.gw_row = 7 → t.gw_row = 0)
      ∧ t.bus = s.bus
          ++ [BusByte.cmd (0xB0 ||| (7 - (s.gw_row + 1) % 8)),
              BusByte.cmd (0x00 ||| (0 &&& 0x0F)),
              BusByte.cmd (0x10 ||| ((0 >>> 4) &&& 0x07))] := by
  have _ := hcol
  refine ⟨_, lcd_putc_newline env s, ?_, ?_, ?_, ?_⟩
  · rw [newline_working env hv s hw hr]
  · rw [newline_working env hv s hw hr]
  · intro h7
    rw [newline_working env hv s hw hr]
    simp [h7]
  · rw [newline_working env hv s hw hr]
    rfl

theorem lcd_putc_newline_moves_to_next_row_start_witness :
    ∃ t, lcd_putc ⟨false, true, true, false⟩ 10 ⟨0, 7, 93, 1, 1, []⟩ = some t
      ∧ t.gw_column = 0 ∧ t.gw_row = 0
      ∧ t.bus = [BusByte.cmd 0xB7, BusByte.cmd 0x00, BusByte.cmd 0x10] :=
  have ⟨t, h1, h2, _, h4, h5⟩ := lcd_putc_newline_moves_to_next_row_start
    ⟨false, true, true, false⟩ rfl ⟨0, 7, 93, 1, 1, []⟩ (by decide) (by decide) (by decide)
  ⟨t, h1, h2, h4 rfl, h5⟩

/-- Claim C9: on the standard build with a working transport, feeding the
bytes 'H', 'i', '\n', '!' one after another to `lcd_putc` from cursor (0, 0)
sends, in order, the 7 data bytes of 'H', the 7 data bytes of 'i', the three
addressing commands of position (0, 1) and the 7 data bytes of '!', and leaves
the cursor at (7, 1). With the display's address counter at the cursor (page 7,
column 0), the bytes of 'H' land in columns 0 to 6 of row 0 (page 7), those of
'i' in columns 7 to 13 of row 0, and those of '!' in columns 0 to 6 of row 1
(page 6). -/
theorem lcd_puts_Hi_newline_bang (env : Env) (hv : env.ADAFRUIT_ST7565_LCD = false) (s : Lcd)
    (hw : Working env s) (hcol : s.gw_column = 0) (hrow : s.gw_row = 0)
    (ha : addrOf s = ⟨7, 0⟩) :
    ∃ t, lcd_puts env [72, 105, 10, 33] s = some t
      ∧ t.bus = s.bus ++
          [BusByte.data 0xFE, BusByte.data 0x10, BusByte.data 0x10, BusByte.data 0x10,
           BusByte.data 0xFE, BusByte.data 0x00, BusByte.data 0x00,
           BusByte.data 0x00, BusByte.data 0x22, BusByte.data 0xBE, BusByte.data 0x02,
           BusByte.data 0x00, BusByte.data 0x00, BusByte.data 0x00,
           BusByte.cmd 0xB6, BusByte.cmd 0x00, BusByte.cmd 0x10,
           BusByte.data 0x00, BusByte.data 0x00, BusByte.data 0xFA, BusByte.data 0x00,
           BusByte.data 0x00, BusByte.data 0x00, BusByte.data 0x00]
      ∧ Addr.writes (addrOf s) (t.bus.drop s.bus.length) =
          [(7, 0, 0xFE), (7, 1, 0x10), (7, 2, 0x10), (7, 3, 0x10), (7, 4, 0xFE), (7, 5, 0), (7, 6, 0),
           (7, 7, 0x00), (7, 8, 0x22), (7, 9, 0xBE), (7, 10, 0x02), (7, 11, 0x00), (7, 12, 0),
           (7, 13, 0),
           (6, 0, 0x00), (6, 1, 0x00), (6, 2, 0xFA), (6, 3, 0x00), (6, 4, 0x00), (6, 5, 0), (6, 6, 0)]
      ∧ t.gw_column = 7
      ∧ t.gw_row = 1 := by
  have gH : (gca_font.drop (((72 &&& 0x7F) - 32) * 5)).take 5 = [0xFE, 0x10, 0x10, 0x10, 0xFE] := by
    unfold gca_font; decide
  have gi : (gca_font.drop (((105 &&& 0x7F) - 32) * 5)).take 5 = [0x00, 0x22, 0xBE, 0x02, 0x00] := by
    unfold gca_font; decide
  have gb : (gca_font.drop (((33 &&& 0x7F) - 32) * 5)).take 5 = [0x00, 0x00, 0xFA, 0x00, 0x00] := by
    unfold gca_font; decide
  have hrun : lcd_puts env [72, 105, 10, 33] s = some
      { s with gw_row := 1, gw_column := 7, pin_A0 := 1,
               bus := s.bus ++
                [BusByte.data 0xFE, BusByte.data 0x10, BusByte.data 0x10, BusByte.data 0x10,
                 BusByte.data 0xFE, BusByte.data 0x00, BusByte.data 0x00,
                 BusByte.data 0x00, BusByte.data 0x22, BusByte.data 0xBE, BusByte.data 0x02,
                 BusByte.data 0x00, BusByte.data 0x00, BusByte.data 0x00,
                 BusByte.cmd 0xB6, BusByte.cmd 0x00, BusByte.cmd 0x10,
                 BusByte.data 0x00, BusByte.data 0x00, BusByte.data 0xFA, BusByte.data 0x00,
                 BusByte.data 0x00, BusByte.data 0x00, BusByte.data 0x00] } := by
    simp only [lcd_puts]
    rw [lcd_putc_printable_nowrap env 72 s hw (by decide) (by decide) (by decide) (by omega), gH]
    simp only []
    rw [lcd_putc_printable_nowrap env 105 _ ?_ (by decide) (by decide) (by decide) ?_, gi]
    · simp only []
      rw [lcd_putc_newline, newline_working env hv _ ?_ ?_]
      · simp only []
        rw [lcd_putc_printable_nowrap env 33 _ ?_ (by decide) (by decide) (by decide) ?_, gb]
        · simp [hrow, hcol]
        · exact working_of_handle env s _ hw rfl
        · simp
      · exact working_of_handle env s _ hw rfl
      · simp [hrow]
    · exact working_of_handle env s _ hw rfl
    · simp [hcol]
  refine ⟨_, hrun, rfl, ?_, rfl, rfl⟩
  rw [ha]
  simp only [List.drop_left]
  decide

theorem lcd_puts_Hi_newline_bang_witness :
    ∃ t, lcd_puts ⟨false, true, true, false⟩ [72, 105, 10, 33]
        ⟨0, 0, 0, 0, 1, [BusByte.cmd 0xB7, BusByte.cmd 0x00, BusByte.cmd 0x10]⟩ = some t
      ∧ t.gw_column = 7 ∧ t.gw_row = 1 :=
  have ⟨t, h1, _, _, h4, h5⟩ := lcd_puts_Hi_newline_bang ⟨false, true, true, false⟩ rfl
    ⟨0, 0, 0, 0, 1, [BusByte.cmd 0xB7, BusByte.cmd 0x00, BusByte.cmd 0x10]⟩
    (by decide) rfl rfl (by decide)
  ⟨t, h1, h4, h5⟩

/-! ## Initialisation -/

theorem lcd_bright_working (env : Env) (v : Int) (s : Lcd) (hw : Working env s) :
    lcd_bright env v s =
      (0, { s with pin_A0 := 0,
                   bus := s.bus ++ [BusByte.cmd 0x81, BusByte.cmd ((v % 64).toNat % 256)] }) := by
  simp only [lcd_bright, ST7565_LCD_CMD_SET_VOLUME_FIRST, ST7565_LCD_CMD_SET_VOLUME_SECOND]
  rw [lcd_cmd_working env 0x81 s hw]
  simp only [ne_eq, not_true_eq_false, if_false]
  rw [lcd_cmd_working env _ _ ?_]
  · simp
  · exact working_of_handle env s _ hw rfl

/-- Claim C10: on the standard build with a working GPIO and transport,
`lcd_init` sends the command bytes 0xA3, 0xA0, 0xC0, 0x40, 0x2C, 0x2E, 0x2F,
0x27, 0xAF, 0xA4, 0x81, 0x00 in exactly this order, followed by exactly the bus
output of `lcd_clear` (for each row 0 .. 7 the three addressing commands and
128 zero data bytes, then the addressing commands of position (0, 0)); it
returns 0 and leaves the cursor at (0, 0). -/
theorem lcd_init_command_sequence (env : Env) (hv : env.ADAFRUIT_ST7565_LCD = false) (s : Lcd)
    (hw : Working env s) :
    (lcd_init env s).1 = 0
      ∧ (lcd_init env s).2.gw_column = 0
      ∧ (lcd_init env s).2.gw_row = 0
      ∧ (lcd_init env s).2.bus =
          s.bus
            ++ [BusByte.cmd 0xA3, BusByte.cmd 0xA0, BusByte.cmd 0xC0, BusByte.cmd 0x40,
                BusByte.cmd 0x2C, BusByte.cmd 0x2E, BusByte.cmd 0x2F, BusByte.cmd 0x27,
                BusByte.cmd 0xAF, BusByte.cmd 0xA4, BusByte.cmd 0x81, BusByte.cmd 0x00]
            ++ ((List.range 8).flatMap (fun r =>
                  [BusByte.cmd (0xB0 ||| (7 - r)), BusByte.cmd 0x00, BusByte.cmd 0x10]
                    ++ List.replicate 128 (BusByte.data 0x00))
                ++ [BusByte.cmd (0xB0 ||| (7 - 0)), BusByte.cmd 0x00, BusByte.cmd 0x10])
      ∧ (∀ t : Lcd, t.gx_spihandle = 0 →
          (lcd_init env s).2.bus.drop (s.bus.length + 12)
            = (lcd_clear env t).2.bus.drop t.bus.length) := by
  have hinit : lcd_init env s =
      (0, { s with gw_row := 0, gw_column := 0, pin_A0 := 0, pin_nRST := 1,
                   bus := s.bus
            ++ [BusByte.cmd 0xA3, BusByte.cmd 0xA0, BusByte.cmd 0xC0, BusByte.cmd 0x40,
                BusByte.cmd 0x2C, BusByte.cmd 0x2E, BusByte.cmd 0x2F, BusByte.cmd 0x27,
                BusByte.cmd 0xAF, BusByte.cmd 0xA4, BusByte.cmd 0x81, BusByte.cmd 0x00]
            ++ ((List.range 8).flatMap (fun r =>
                  [BusByte.cmd (0xB0 ||| (7 - r)), BusByte.cmd 0x00, BusByte.cmd 0x10]
                    ++ List.replicate 128 (BusByte.data 0x00))
                ++ [BusByte.cmd (0xB0 ||| 7), BusByte.cmd 0x00, BusByte.cmd 0x10]) }) := by
    have hg : env.gpioWrite_ok = true := hw.2.1
    simp only [lcd_init, lcd_reset, gpioWrite, hg, if_true, LCD_A0, LCD_nRST,
      ST7565_LCD_CMD_SET_BIAS_7, ST7565_LCD_CMD_SET_ADC_NORMAL, ST7565_LCD_CMD_SET_COM_NORMAL,
      ST7565_LCD_CMD_SET_DISP_START_LINE, ST7565_LCD_CMD_SET_POWER_CONTROL,
      ST7565_LCD_CMD_SET_RESISTOR_RATIO, ST7565_LCD_CMD_DISPLAY_ON,
      ST7565_LCD_CMD_SET_ALLPTS_NORMAL, ST7565_LCD_PARAM_BRIGHTNESS, hv]
    simp [lcd_cmd_working, lcd_bright_working, lcd_clear_working, hv, Working, hw.1, hw.2.1,
      hw.2.2]
  refine ⟨?_, ?_, ?_, ?_, ?_⟩
  · rw [hinit]
  · rw [hinit]
  · rw [hinit]
  · rw [hinit]
  · intro t ht
    rw [hinit, lcd_clear_working env hv t ⟨ht, hw.2.1, hw.2.2⟩]
    simp only [List.append_assoc]
    rw [List.drop_left, ← List.drop_drop, List.drop_left]
    rfl

theorem lcd_init_command_sequence_witness :
    (lcd_init ⟨false, true, true, false⟩ ⟨0, 4, 4, 1, 1, []⟩).1 = 0
      ∧ (lcd_init ⟨false, true, true, false⟩ ⟨0, 4, 4, 1, 1, []⟩).2.gw_column = 0
      ∧ (lcd_init ⟨false, true, true, false⟩ ⟨0, 4, 4, 1, 1, []⟩).2.gw_row = 0 :=
  have h := lcd_init_command_sequence ⟨false, true, true, false⟩ rfl ⟨0, 4, 4, 1, 1, []⟩
    (by decide)
  ⟨h.1, h.2.1, h.2.2.1⟩

/-! ## The address counter follows the cursor -/

theorem Addr.writes_map_data (a : Addr) (l : List Nat) :
    (Addr.writes a (l.map BusByte.data)).map (fun w => (w.1, w.2.1))
        = (List.range l.length).map (fun i => (a.page, a.column + i))
      ∧ Addr.run a (l.map BusByte.data) = ⟨a.page, a.column + l.length⟩ := by
  induction l generalizing a with
  | nil => simp [Addr.writes, Addr.run]
  | cons x xs ih =>
    obtain ⟨h1, h2⟩ := ih (a.step (BusByte.data x))
    constructor
    · rw [List.map_cons, Addr.writes, List.map_cons, h1, List.length_cons,
        List.range_succ_eq_map]
      simp [Addr.step, Nat.add_assoc, Nat.add_comm 1]
    · have h3 : Addr.run a (BusByte.data x :: xs.map BusByte.data)
          = Addr.run (a.step (BusByte.data x)) (xs.map BusByte.data) := rfl
      rw [List.map_cons, h3, h2]
      simp [Addr.step, Nat.add_assoc, Nat.add_comm 1]

theorem addrOf_append (s t : Lcd) (bs : List BusByte) (h : t.bus = s.bus ++ bs) :
    addrOf t = Addr.run (addrOf s) bs := by
  rw [addrOf, h, Addr.run_append]
  rfl

/-- A valid `lcd_goto` puts the display in step with the stored cursor. -/
theorem lcd_goto_inSync (env : Env) (hv : env.ADAFRUIT_ST7565_LCD = false) (column row : Nat)
    (s : Lcd) (hw : Working env s) (hc : column < 128) (hr : row < 8) :
    InSync (lcd_goto env column row s).2 ∧ Working env (lcd_goto env column row s).2 := by
  rw [lcd_goto_working env hv column row s hw hc hr]
  refine ⟨⟨?_, hr, hc⟩, working_of_handle env s _ hw rfl⟩
  rw [addrOf_append s _ _ rfl]
  exact Addr.run_addressing _ column row hc hr

theorem lcd_goto_keeps_inSync (env : Env) (hv : env.ADAFRUIT_ST7565_LCD = false)
    (column row : Nat) (s : Lcd) (hw : Working env s) (hs : InSync s) :
    InSync (lcd_goto env column row s).2 ∧ Working env (lcd_goto env column row s).2 := by
  by_cases h : column < 128 ∧ row < 8
  · exact lcd_goto_inSync env hv column row s hw h.1 h.2
  · have h2 : (lcd_goto env column row s).2 = s := by
      by_cases hc : 128 ≤ column
      · simp [lcd_goto, ST7565_LCD_MAX_COLUMNS, hc]
      · have hr : 8 ≤ row := by omega
        simp [lcd_goto, hv, ST7565_LCD_MAX_COLUMNS, ST7565_LCD_MAX_ROWS, hc, hr]
    rw [h2]
    exact ⟨hs, hw⟩

theorem newline_keeps_inSync (env : Env) (hv : env.ADAFRUIT_ST7565_LCD = false) (s : Lcd)
    (hw : Working env s) (hs : InSync s) :
    InSync (_lcd_process_putc_newline env s) ∧ Working env (_lcd_process_putc_newline env s) := by
  obtain ⟨_, hr, _⟩ := hs
  rw [newline_working env hv s hw hr]
  have hr2 : (s.gw_row + 1) % 8 < 8 := Nat.mod_lt _ (by decide)
  refine ⟨⟨?_, hr2, (by decide : 0 < 128)⟩, working_of_handle env s _ hw rfl⟩
  rw [addrOf_append s _ _ rfl]
  exact Addr.run_addressing _ 0 _ (by decide) hr2

/-- A printable character keeps the display in step with the cursor, and its 7
data bytes go to 7 consecutive columns of one page, ending at column 127 at
most: the page and the columns just left of the new cursor. -/
theorem lcd_putc_printable_inSync (env : Env) (hv : env.ADAFRUIT_ST7565_LCD = false) (c : Nat)
    (s : Lcd) (hw : Working env s) (hs : InSync s) (hlo : 32 ≤ c) (hhi : c ≤ 126) :
    ∃ t, lcd_putc env c s = some t ∧ InSync t ∧ Working env t
      ∧ ∃ p col, col + 6 ≤ 127 ∧ p = 7 - t.gw_row ∧ col + 7 = t.gw_column
        ∧ (Addr.writes (addrOf s) (t.bus.drop s.bus.length)).map (fun w => (w.1, w.2.1))
            = (List.range 7).map (fun i => (p, col + i)) := by
  have hm : ∀ k, k < 128 → k &&& 0x7F = k := by decide
  have hc7 : c &&& 0x7F = c := hm c (by omega)
  have hlen := glyph_slice_length c hhi
  have hlen7 : ((gca_font.drop ((c - 32) * 5)).take 5 ++ [0x00, 0x00]).length = 7 := by
    rw [List.length_append, hlen]; rfl
  obtain ⟨ha, hr, hcol⟩ := hs
  by_cases hcase : s.gw_column ≤ 120
  · have e := lcd_putc_printable_nowrap env c s hw (by omega) (by omega) (by omega) hcase
    rw [hc7] at e
    have hb : ∀ xs : List BusByte, s.bus ++ xs ++ [BusByte.data 0x00, BusByte.data 0x00]
        = s.bus ++ (xs ++ [BusByte.data 0x00, BusByte.data 0x00]) := by
      intro xs; rw [List.append_assoc]
    have hd : ((gca_font.drop ((c - 32) * 5)).take 5).map BusByte.data
          ++ [BusByte.data 0x00, BusByte.data 0x00]
        = ((gca_font.drop ((c - 32) * 5)).take 5 ++ [0x00, 0x00]).map BusByte.data := by
      simp
    obtain ⟨w1, w2⟩ := Addr.writes_map_data (addrOf s)
      ((gca_font.drop ((c - 32) * 5)).take 5 ++ [0x00, 0x00])
    rw [hlen7] at w1 w2
    refine ⟨_, e, ⟨?_, hr, by simp only []; omega⟩, working_of_handle env s _ hw rfl,
      7 - s.gw_row, s.gw_column, by omega, rfl, rfl, ?_⟩
    · rw [addrOf_append s _ _ (hb _), hd, w2, ha]
    · simp only [hb, List.drop_left]
      rw [hd, w1, ha]
  · have e := lcd_putc_printable_wrap env hv c s hw (by omega) (by omega) (by omega)
      (by omega) hcol hr
    rw [hc7] at e
    have hr2 : (s.gw_row + 1) % 8 < 8 := Nat.mod_lt _ (by decide)
    have hb : ∀ ys xs : List BusByte, s.bus ++ ys ++ xs ++ [BusByte.data 0x00, BusByte.data 0x00]
        = s.bus ++ (ys ++ (xs ++ [BusByte.data 0x00, BusByte.data 0x00])) := by
      intro ys xs; simp only [List.append_assoc]
    have hd : ((gca_font.drop ((c - 32) * 5)).take 5).map BusByte.data
          ++ [BusByte.data 0x00, BusByte.data 0x00]
        = ((gca_font.drop ((c - 32) * 5)).take 5 ++ [0x00, 0x00]).map BusByte.data := by
      simp
    have hg : Addr.run (addrOf s) [BusByte.cmd (0xB0 ||| (7 - (s.gw_row + 1) % 8)),
        BusByte.cmd 0x00, BusByte.cmd 0x10] = ⟨7 - (s.gw_row + 1) % 8, 0⟩ :=
      Addr.run_addressing _ 0 _ (by decide) hr2
    obtain ⟨w1, w2⟩ := Addr.writes_map_data ⟨7 - (s.gw_row + 1) % 8, 0⟩
      ((gca_font.drop ((c - 32) * 5)).take 5 ++ [0x00, 0x00])
    rw [hlen7] at w1 w2
    refine ⟨_, e, ⟨?_, hr2, (by decide : 7 < 128)⟩, working_of_handle env s _ hw rfl,
      7 - (s.gw_row + 1) % 8, 0, by decide, rfl, rfl, ?_⟩
    · rw [addrOf_append s _ _ (hb _ _), Addr.run_append, hg, hd, w2]
    · simp only [hb, List.drop_left]
      rw [Addr.writes_append, Addr.writes_addressing, List.nil_append, hg, hd, w1]

theorem call_keeps_inSync (env : Env) (hv : env.ADAFRUIT_ST7565_LCD = false) (k : Call)
    (hk : k.Plain) (s : Lcd) (hw : Working env s) (hs : InSync s) :
    ∃ t, k.run env s = some t ∧ InSync t ∧ Working env t := by
  cases k with
  | goto bColumn bRow =>
    exact ⟨_, rfl, lcd_goto_keeps_inSync env hv bColumn bRow s hw hs⟩
  | putc c =>
    rcases hk with ⟨hlo, hhi⟩ | hnl
    · obtain ⟨t, h1, h2, h3, _⟩ := lcd_putc_printable_inSync env hv c s hw hs hlo hhi
      exact ⟨t, h1, h2, h3⟩
    · subst hnl
      exact ⟨_, lcd_putc_newline env s, newline_keeps_inSync env hv s hw hs⟩

theorem runCalls_keeps_inSync (env : Env) (hv : env.ADAFRUIT_ST7565_LCD = false)
    (ks : List Call) (hks : ∀ k ∈ ks, k.Plain) (s : Lcd) (hw : Working env s) (hs : InSync s) :
    ∃ t, runCalls env ks s = some t ∧ InSync t ∧ Working env t := by
  induction ks generalizing s with
  | nil => exact ⟨s, rfl, hs, hw⟩
  | cons k ks ih =>
    obtain ⟨t, h1, h2, h3⟩ := call_keeps_inSync env hv k (hks k (List.mem_cons_self k ks)) s hw hs
    obtain ⟨u, h4, h5⟩ := ih (fun j hj => hks j (List.mem_cons_of_mem k hj)) t h3 h2
    refine ⟨u, ?_, h5⟩
    rw [runCalls, h1]
    exact h4

/-- Claim C7: on the standard build with a working transport, read the
display's address as the page and column selected by the last addressing
commands, the column advancing by one per data byte. Start right after any
successful `lcd_goto` and run any sequence of `lcd_goto` calls and `lcd_putc`
calls on printable (32 .. 126) or newline bytes. Then every call of the
sequence returns, before each call `k` the display's address is page
`7 - gw_row`, column `gw_column`, and when `k` puts a printable byte its 7 data
bytes are written to columns `col .. col + 6` of one page with
`col + 6 <= 127`: no glyph is split across the right edge or across two
pages. -/
theorem glyphs_never_split (env : Env) (hv : env.ADAFRUIT_ST7565_LCD = false) (s : Lcd)
    (hw : Working env s) (column row : Nat) (hc : column < 128) (hr : row < 8)
    (pre : List Call) (k : Call) (hpre : ∀ j ∈ pre, j.Plain) (hk : k.Plain) :
    ∃ t, runCalls env pre (lcd_goto env column row s).2 = some t
      ∧ addrOf t = ⟨7 - t.gw_row, t.gw_column⟩
      ∧ ∃ u, k.run env t = some u
        ∧ addrOf u = ⟨7 - u.gw_row, u.gw_column⟩
        ∧ ∀ c, k = Call.putc c → 32 ≤ c →
            ∃ p col, col + 6 ≤ 127
              ∧ (Addr.writes (addrOf t) (u.bus.drop t.bus.length)).map (fun w => (w.1, w.2.1))
                  = (List.range 7).map (fun i => (p, col + i)) := by
  obtain ⟨h0, hw0⟩ := lcd_goto_inSync env hv column row s hw hc hr
  obtain ⟨t, h1, h2, h3⟩ := runCalls_keeps_inSync env hv pre hpre _ hw0 h0
  obtain ⟨u, h4, h5, _⟩ := call_keeps_inSync env hv k hk t h3 h2
  refine ⟨t, h1, h2.1, u, h4, h5.1, ?_⟩
  intro c hkc hlo
  subst hkc
  have hhi : c ≤ 126 := by
    rcases hk with ⟨_, h⟩ | h
    · exact h
    · omega
  obtain ⟨u2, g1, _, _, p, col, g2, _, _, g3⟩ := lcd_putc_printable_inSync env hv c t h3 h2 hlo hhi
  have hu : u2 = u := Option.some.inj (g1.symm.trans h4)
  subst hu
  exact ⟨p, col, g2, g3⟩

theorem glyphs_never_split_witness :
    ∃ t, runCalls ⟨false, true, true, false⟩ [Call.putc 72, Call.putc 10, Call.goto 125 7]
        (lcd_goto ⟨false, true, true, false⟩ 3 2 ⟨0, 0, 0, 1, 1, []⟩).2 = some t
      ∧ addrOf t = ⟨7 - t.gw_row, t.gw_column⟩
      ∧ ∃ u, (Call.putc 65).run ⟨false, true, true, false⟩ t = some u
        ∧ addrOf u = ⟨7 - u.gw_row, u.gw_column⟩
        ∧ ∀ c, Call.putc 65 = Call.putc c → 32 ≤ c →
            ∃ p col, col + 6 ≤ 127
              ∧ (Addr.writes (addrOf t) (u.bus.drop t.bus.length)).map (fun w => (w.1, w.2.1))
                  = (List.range 7).map (fun i => (p, col + i)) :=
  glyphs_never_split ⟨false, true, true, false⟩ rfl ⟨0, 0, 0, 1, 1, []⟩ (by decide) 3 2
    (by decide) (by decide) [Call.putc 72, Call.putc 10, Call.goto 125 7] (Call.putc 65)
    (by simp [Call.Plain]) (by simp [Call.Plain])


/-! ## Standby -/

theorem lcd_standby_enter_working (env : Env) (s : Lcd) (hw : Working env s) :
    lcd_standby env 0 s =
      { s with pin_A0 := 0,
               bus := s.bus ++ [BusByte.cmd 0xAD, BusByte.cmd 0x03, BusByte.cmd 0xAE,
                                BusByte.cmd 0xA5] } := by
  simp only [lcd_standby, if_true, ST7565_LCD_CMD_SET_STATIC_ON, ST7565_LCD_CMD_SET_STATIC_REG,
    ST7565_LCD_CMD_DISPLAY_OFF, ST7565_LCD_CMD_SET_ALLPTS_ON]
  simp [lcd_cmd_working, Working, hw.1, hw.2.1, hw.2.2]

theorem lcd_standby_exit_working (env : Env) (b : Nat) (hb : b ≠ 0) (s : Lcd)
    (hw : Working env s) :
    lcd_standby env b s =
      { s with pin_A0 := 0, bus := s.bus ++ [BusByte.cmd 0xA4, BusByte.cmd 0xAF] } := by
  simp only [lcd_standby, hb, if_false, ST7565_LCD_CMD_SET_ALLPTS_NORMAL,
    ST7565_LCD_CMD_DISPLAY_ON]
  simp [lcd_cmd_working, Working, hw.1, hw.2.1, hw.2.2]

/-- Claim C11: with a working transport, `lcd_standby(0)` sends exactly the
commands 0xAD, 0x03, 0xAE, 0xA5 in this order, and `lcd_standby(b)` for every
`b` other than 0 sends exactly 0xA4 then 0xAF; neither sends a data byte or
anything else, neither changes the stored cursor, and entering followed by
leaving standby sends these six commands and nothing in between. -/
theorem lcd_standby_command_sequences (env : Env) (s : Lcd) (hw : Working env s) (b : Nat)
    (hb : b ≠ 0) :
    (lcd_standby env 0 s).bus =
        s.bus ++ [BusByte.cmd 0xAD, BusByte.cmd 0x03, BusByte.cmd 0xAE, BusByte.cmd 0xA5]
      ∧ (lcd_standby env b s).bus = s.bus ++ [BusByte.cmd 0xA4, BusByte.cmd 0xAF]
      ∧ (lcd_standby env 0 s).gw_column = s.gw_column
      ∧ (lcd_standby env 0 s).gw_row = s.gw_row
      ∧ (lcd_standby env b s).gw_column = s.gw_column
      ∧ (lcd_standby env b s).gw_row = s.gw_row
      ∧ (lcd_standby env b (lcd_standby env 0 s)).bus =
          s.bus ++ [BusByte.cmd 0xAD, BusByte.cmd 0x03, BusByte.cmd 0xAE, BusByte.cmd 0xA5,
                    BusByte.cmd 0xA4, BusByte.cmd 0xAF] := by
  have h0 := lcd_standby_enter_working env s hw
  have h1 := lcd_standby_exit_working env b hb s hw
  have h2 := lcd_standby_exit_working env b hb (lcd_standby env 0 s)
    (working_of_handle env s _ hw (by rw [h0]))
  refine ⟨by rw [h0], by rw [h1], by rw [h0], by rw [h0], by rw [h1], by rw [h1], ?_⟩
  rw [h2, h0]
  simp

theorem lcd_standby_command_sequences_witness :
    (lcd_standby ⟨false, true, true, false⟩ 0 ⟨0, 3, 21, 1, 1, []⟩).bus =
        [] ++ [BusByte.cmd 0xAD, BusByte.cmd 0x03, BusByte.cmd 0xAE, BusByte.cmd 0xA5]
      ∧ (lcd_standby ⟨false, true, true, false⟩ 1 ⟨0, 3, 21, 1, 1, []⟩).bus =
        [] ++ [BusByte.cmd 0xA4, BusByte.cmd 0xAF] :=
  have h := lcd_standby_command_sequences ⟨false, true, true, false⟩ ⟨0, 3, 21, 1, 1, []⟩
    (by decide) 1 (by decide)
  ⟨h.1, h.2.1⟩

/-! ## Control bytes -/

theorem mask7_lt (c : Nat) : (c % 256) &&& 0x7F < 128 :=
  lt_of_le_of_lt Nat.and_le_right (by decide)

/-- The cursor-marker comparison of `lcd_putc` never succeeds: the byte has
been masked to 7 bits, and `'\x80'` is 128 or -128. -/
theorem cursor_branch_dead (env : Env) (c : Nat) :
    (((c % 256) &&& 0x7F : Nat) : Int) ≠ ST7565_LCD_FMT_CURSOR env := by
  have h := mask7_lt c
  unfold ST7565_LCD_FMT_CURSOR
  split_ifs <;> omega

/-- A byte whose 7-bit value is below 32 and not 10 leaves the state as it is. -/
theorem lcd_putc_control_noop (env : Env) (c : Nat) (s : Lcd) (h32 : (c % 256) &&& 0x7F < 32)
    (h10 : (c % 256) &&& 0x7F ≠ 10) : lcd_putc env c s = some s := by
  have hnl : ¬ ((((c % 256) &&& 0x7F : Nat) : Int) = ST7565_LCD_FMT_NEWINE) := by
    unfold ST7565_LCD_FMT_NEWINE; omega
  simp only [lcd_putc, ST7565_LCD_PARAM_FONT_CHAR_MINVAL, h32, if_true, hnl, if_false,
    cursor_branch_dead env c]

/-- Claim C12 (refuted by the code): for the cursor-marker byte 0x80, `lcd_putc`
sends nothing at all. The byte is masked to 7 bits first, so the value compared
with `ST7565_LCD_FMT_CURSOR` is 0, the loop that would send seven 0xFC bytes is
never entered (for no byte at all), and the state is returned unchanged. -/
theorem lcd_putc_cursor_marker_sends_nothing (env : Env) (s : Lcd) :
    lcd_putc env 0x80 s = some s
      ∧ ∀ c : Nat, (((c % 256) &&& 0x7F : Nat) : Int) ≠ ST7565_LCD_FMT_CURSOR env :=
  ⟨lcd_putc_control_noop env 0x80 s (by decide) (by decide), cursor_branch_dead env⟩

/-- Claim C19: for every byte whose 7-bit value is below 32 and is not the
newline code 10 (the cursor-marker byte 0x80 included), `lcd_putc` is a no-op:
it returns the state as it was, so no command or data byte is sent and the
stored cursor row and column are unchanged. -/
theorem lcd_putc_other_control_bytes_noop (env : Env) (c : Nat) (s : Lcd) (hc : c < 256)
    (h32 : c &&& 0x7F < 32) (h10 : c &&& 0x7F ≠ 10) :
    ∃ t, lcd_putc env c s = some t
      ∧ t.bus = s.bus ∧ t.gw_row = s.gw_row ∧ t.gw_column = s.gw_column ∧ t = s := by
  have hm : c % 256 = c := Nat.mod_eq_of_lt hc
  exact ⟨s, lcd_putc_control_noop env c s (by rw [hm]; exact h32) (by rw [hm]; exact h10),
    rfl, rfl, rfl, rfl⟩

theorem lcd_putc_other_control_bytes_noop_witness :
    ∃ t, lcd_putc ⟨false, true, true, false⟩ 0x07 ⟨0, 2, 30, 1, 1, [BusByte.data 9]⟩ = some t
      ∧ t.bus = [BusByte.data 9] ∧ t.gw_row = 2 ∧ t.gw_column = 30 :=
  have ⟨t, h1, h2, h3, h4, _⟩ := lcd_putc_other_control_bytes_noop ⟨false, true, true, false⟩
    0x07 ⟨0, 2, 30, 1, 1, [BusByte.data 9]⟩ (by decide) (by decide) (by decide)
  ⟨t, h1, h2, h3, h4⟩

/-- Claim C20: `lcd_putc` masks its input to 7 bits: for every byte `c` and
every state, `lcd_putc(c)` and `lcd_putc(c & 0x7F)` have the same outcome, so
the same bus output and the same resulting cursor. -/
theorem lcd_putc_masks_to_seven_bits (env : Env) (c : Nat) (s : Lcd) (hc : c < 256) :
    lcd_putc env c s = lcd_putc env (c &&& 0x7F) s
      ∧ ∀ t, lcd_putc env c s = some t →
          ∃ u, lcd_putc env (c &&& 0x7F) s = some u
            ∧ u.bus = t.bus ∧ u.gw_row = t.gw_row ∧ u.gw_column = t.gw_column := by
  have hm : ((c &&& 0x7F) % 256) &&& 0x7F = (c % 256) &&& 0x7F := by
    rw [Nat.mod_eq_of_lt (lt_of_le_of_lt Nat.and_le_right (by decide) : c &&& 0x7F < 256),
      Nat.mod_eq_of_lt hc, Nat.and_assoc, Nat.and_self]
  have he : lcd_putc env c s = lcd_putc env (c &&& 0x7F) s := by
    simp only [lcd_putc, hm]
  refine ⟨he, ?_⟩
  intro t ht
  exact ⟨t, he ▸ ht, rfl, rfl, rfl⟩

theorem lcd_putc_masks_to_seven_bits_witness :
    lcd_putc ⟨false, true, true, false⟩ 0xC1 ⟨0, 0, 0, 1, 1, []⟩
      = lcd_putc ⟨false, true, true, false⟩ (0xC1 &&& 0x7F) ⟨0, 0, 0, 1, 1, []⟩ :=
  (lcd_putc_masks_to_seven_bits ⟨false, true, true, false⟩ 0xC1 ⟨0, 0, 0, 1, 1, []⟩
    (by decide)).1

/-! ## Failing transport and out-of-range arguments -/

theorem lcd_cmd_closed (env : Env) (b : Nat) (s : Lcd) (h : s.gx_spihandle ≠ 0) :
    lcd_cmd env b s = (-41, s) := by
  simp [lcd_cmd, h]

theorem lcd_data_closed (env : Env) (b : Nat) (s : Lcd) (h : s.gx_spihandle ≠ 0) :
    lcd_data env b s = (-31, s) := by
  simp [lcd_data, h]

theorem lcd_data_loop_closed (env : Env) (b n : Nat) (s : Lcd) (h : s.gx_spihandle ≠ 0) :
    lcd_data_loop env b n s = s := by
  induction n with
  | zero => rfl
  | succ n ih => rw [lcd_data_loop, lcd_data_closed env b s h]; exact ih

theorem lcd_data_loop_globals (env : Env) (b n : Nat) (s : Lcd) :
    (lcd_data_loop env b n s).gw_row = s.gw_row
      ∧ (lcd_data_loop env b n s).gw_column = s.gw_column
      ∧ (lcd_data_loop env b n s).gx_spihandle = s.gx_spihandle := by
  induction n generalizing s with
  | zero => exact ⟨rfl, rfl, rfl⟩
  | succ n ih =>
    obtain ⟨h1, h2, h3⟩ := ih (lcd_data env b s).2
    obtain ⟨g1, g2, g3⟩ := lcd_data_globals env b s
    rw [lcd_data_loop]
    exact ⟨h1.trans g1, h2.trans g2, h3.trans g3⟩

/-- A valid `lcd_goto` returns 0 and stores the position on either build and
whatever the transport does; the SPI handle is never changed. -/
theorem lcd_goto_valid (env : Env) (column row : Nat) (s : Lcd) (hc : column < 128)
    (hr : row < (if env.ADAFRUIT_ST7565_LCD then 9 else 8)) :
    (lcd_goto env column row s).1 = 0
      ∧ (lcd_goto env column row s).2.gw_row = row
      ∧ (lcd_goto env column row s).2.gw_column = column
      ∧ (lcd_goto env column row s).2.gx_spihandle = s.gx_spihandle := by
  have hnc : ¬ 128 ≤ column := by omega
  cases hv : env.ADAFRUIT_ST7565_LCD with
  | false =>
    rw [hv] at hr
    have hnr : ¬ 8 ≤ row := by simp at hr; omega
    simp only [lcd_goto, hv, ST7565_LCD_MAX_COLUMNS, ST7565_LCD_MAX_ROWS, hnc, hnr, if_false,
      ge_iff_le, Bool.false_eq_true]
    simp [lcd_cmd_globals]
  | true =>
    rw [hv] at hr
    have hnr : ¬ 8 + 1 ≤ row := by simp at hr; omega
    simp only [lcd_goto, hv, ST7565_LCD_MAX_COLUMNS, ST7565_LCD_MAX_ROWS, hnc, hnr, if_false,
      ge_iff_le, if_true]
    simp [lcd_cmd_globals]

/-- The sweep of `lcd_clear` never returns early: it returns 0 and ends with
the cursor at (0, 0), on either build and whatever the transport does. -/
theorem lcd_clear_loop_result (env : Env) (n r : Nat) (s : Lcd)
    (hn : r + n ≤ (if env.ADAFRUIT_ST7565_LCD then 9 else 8)) :
    (lcd_clear_loop env n r s).1 = 0
      ∧ (lcd_clear_loop env n r s).2.gw_row = 0
      ∧ (lcd_clear_loop env n r s).2.gw_column = 0
      ∧ (lcd_clear_loop env n r s).2.gx_spihandle = s.gx_spihandle := by
  have h9 : 0 < (if env.ADAFRUIT_ST7565_LCD then 9 else 8) := by split_ifs <;> decide
  induction n generalizing r s with
  | zero => exact lcd_goto_valid env 0 0 s (by decide) h9
  | succ n ih =>
    obtain ⟨g1, _, _, g4⟩ := lcd_goto_valid env 0 r s (by decide) (by omega)
    rw [lcd_clear_loop]
    simp only [g1, ne_eq, not_true_eq_false, if_false]
    obtain ⟨h1, h2, h3, h4⟩ := ih (r + 1)
      (lcd_data_loop env 0x00 ST7565_LCD_MAX_COLUMNS (lcd_goto env 0 r s).2) (by omega)
    exact ⟨h1, h2, h3, h4.trans ((lcd_data_loop_globals env _ _ _).2.2.trans g4)⟩

theorem lcd_clear_result (env : Env) (s : Lcd) :
    (lcd_clear env s).1 = 0 ∧ (lcd_clear env s).2.gw_row = 0
      ∧ (lcd_clear env s).2.gw_column = 0 := by
  have h := lcd_clear_loop_result env
    (if env.ADAFRUIT_ST7565_LCD then ST7565_LCD_MAX_ROWS + 1 else ST7565_LCD_MAX_ROWS) 0 s
    (by simp only [ST7565_LCD_MAX_ROWS]; split_ifs <;> decide)
  exact ⟨h.1, h.2.1, h.2.2.1⟩

theorem lcd_goto_closed_bus (env : Env) (column row : Nat) (s : Lcd)
    (h : s.gx_spihandle ≠ 0) : (lcd_goto env column row s).2.bus = s.bus := by
  unfold lcd_goto
  split_ifs <;> simp [lcd_cmd_closed, h]

theorem lcd_goto_handle (env : Env) (column row : Nat) (s : Lcd) :
    (lcd_goto env column row s).2.gx_spihandle = s.gx_spihandle := by
  unfold lcd_goto
  split_ifs <;> simp [lcd_cmd_globals]

theorem lcd_clear_loop_closed_bus (env : Env) (n r : Nat) (s : Lcd) (h : s.gx_spihandle ≠ 0) :
    (lcd_clear_loop env n r s).2.bus = s.bus := by
  induction n generalizing r s with
  | zero => exact lcd_goto_closed_bus env 0 0 s h
  | succ n ih =>
    have hg : (lcd_goto env 0 r s).2.gx_spihandle ≠ 0 := by rw [lcd_goto_handle]; exact h
    rw [lcd_clear_loop]
    split_ifs
    · exact lcd_goto_closed_bus env 0 r s h
    · rw [lcd_data_loop_closed env _ _ _ hg, ih (r + 1) _ hg]
      exact lcd_goto_closed_bus env 0 r s h

/-- Claim C13 (as amended): `lcd_clear` does not report failures of the
underlying bus writes. It returns the status of `lcd_goto` only, which is 0 for
every row of the sweep, so it returns 0 on either build whether or not the
writes succeed; in particular when the SPI handle is not 0, where every
`lcd_cmd` returns -41, every `lcd_data` returns -31 and nothing is sent. -/
theorem lcd_clear_returns_zero_even_when_writes_fail (env : Env) (s : Lcd) :
    (lcd_clear env s).1 = 0
      ∧ (s.gx_spihandle ≠ 0 →
          (∀ b, (lcd_cmd env b s).1 = -41 ∧ (lcd_data env b s).1 = -31)
            ∧ (lcd_clear env s).2.bus = s.bus) := by
  refine ⟨(lcd_clear_result env s).1, ?_⟩
  intro h
  refine ⟨fun b => ⟨by rw [lcd_cmd_closed env b s h], by rw [lcd_data_closed env b s h]⟩, ?_⟩
  exact lcd_clear_loop_closed_bus env _ 0 s h

theorem lcd_clear_returns_zero_even_when_writes_fail_witness :
    (lcd_clear ⟨false, false, false, false⟩ ⟨0, 0, 0, 0, 1, []⟩).1 = 0 :=
  (lcd_clear_returns_zero_even_when_writes_fail ⟨false, false, false, false⟩
    ⟨0, 0, 0, 0, 1, []⟩).1

/-- Counterexample to claim C13 as stated: with the SPI handle at -1 the bus
writes of `lcd_clear` fail (`lcd_cmd` returns -41, `lcd_data` returns -31) and
`lcd_clear` still returns 0. -/
theorem lcd_clear_closed_handle_returns_zero :
    (lcd_cmd ⟨false, true, true, false⟩ 0xB7 ⟨-1, 0, 0, 0, 1, []⟩).1 = -41
      ∧ (lcd_data ⟨false, true, true, false⟩ 0x00 ⟨-1, 0, 0, 0, 1, []⟩).1 = -31
      ∧ (lcd_clear ⟨false, true, true, false⟩ ⟨-1, 0, 0, 0, 1, []⟩).1 = 0
      ∧ ¬ ((lcd_clear ⟨false, true, true, false⟩ ⟨-1, 0, 0, 0, 1, []⟩).1 ≠ 0) := by
  have h := (lcd_clear_result ⟨false, true, true, false⟩ ⟨-1, 0, 0, 0, 1, []⟩).1
  refine ⟨by decide, by decide, h, fun hne => hne h⟩

/-! ## Contrast -/

/-- Claim C14 (as amended): `lcd_bright` rejects no value. With a working
transport, for every contrast value outside 0 .. 63 it returns 0 and sends the
contrast command: 0x81 followed by the low six bits of the value
(`bValue & 0x3f`), a byte in 0 .. 63. -/
theorem lcd_bright_masks_out_of_range_value (env : Env) (v : Int) (s : Lcd)
    (hw : Working env s) (hv : v < 0 ∨ 63 < v) :
    (lcd_bright env v s).1 = 0
      ∧ (lcd_bright env v s).2.bus = s.bus ++ [BusByte.cmd 0x81, BusByte.cmd (v % 64).toNat]
      ∧ (v % 64).toNat < 64 := by
  have _ := hv
  have hlt : (v % 64).toNat < 64 := by omega
  rw [lcd_bright_working env v s hw, Nat.mod_eq_of_lt (by omega : (v % 64).toNat < 256)]
  exact ⟨rfl, rfl, hlt⟩

theorem lcd_bright_masks_out_of_range_value_witness :
    (lcd_bright ⟨false, true, true, false⟩ 100 ⟨0, 0, 0, 0, 1, []⟩).1 = 0
      ∧ (lcd_bright ⟨false, true, true, false⟩ 100 ⟨0, 0, 0, 0, 1, []⟩).2.bus
          = [] ++ [BusByte.cmd 0x81, BusByte.cmd ((100 : Int) % 64).toNat]
      ∧ ((100 : Int) % 64).toNat < 64 :=
  lcd_bright_masks_out_of_range_value ⟨false, true, true, false⟩ 100 ⟨0, 0, 0, 0, 1, []⟩
    (by decide) (Or.inr (by decide))

/-- Counterexample to claim C14 as stated: the contrast value 64 lies outside
0 .. 63, yet with a working transport `lcd_bright(64)` returns 0 and sends the
contrast command 0x81, 0x00. -/
theorem lcd_bright_accepts_64 :
    (lcd_bright ⟨false, true, true, false⟩ 64 ⟨0, 0, 0, 0, 1, []⟩).1 = 0
      ∧ (lcd_bright ⟨false, true, true, false⟩ 64 ⟨0, 0, 0, 0, 1, []⟩).2.bus
          = [BusByte.cmd 0x81, BusByte.cmd 0x00] := by
  rw [lcd_bright_working ⟨false, true, true, false⟩ 64 ⟨0, 0, 0, 0, 1, []⟩ (by decide)]
  exact ⟨rfl, rfl⟩

/-! ## The font-table bound -/

theorem lcd_putc_glyph_past_end (env : Env) (i : Nat) (s : Lcd) :
    lcd_putc_glyph env (i + 1) 475 s = none := by
  have h : gca_font[475]? = none := by
    rw [List.getElem?_eq_none_iff, gca_font_length]
  rw [lcd_putc_glyph, h]

/-- A byte whose 7-bit value is 127 reaches the glyph loop with table index
475, one past the last byte of the table. -/
theorem lcd_putc_del_no_result (env : Env) (c : Nat) (s : Lcd) (h : (c % 256) &&& 0x7F = 127) :
    lcd_putc env c s = none := by
  simp only [lcd_putc, h, ST7565_LCD_PARAM_FONT_CHAR_MINVAL, ST7565_LCD_PARAM_FONT_WIDTH]
  simp [lcd_putc_glyph_past_end]

/-- Claim C17 (refuted by the code): the bytes 127 and 255, whose 7-bit value
127 is not below 32, reach the glyph lookup of `lcd_putc` with table offset
`(127 - 32) * 5 = 475`, which is the length of `gca_font`: the first of the
five reads is outside the table, and `lcd_putc` has no defined result. -/
theorem lcd_putc_127_reads_past_font_table (env : Env) (s : Lcd) :
    ((127 &&& 0x7F) - ST7565_LCD_PARAM_FONT_CHAR_MINVAL) * ST7565_LCD_PARAM_FONT_WIDTH
        = gca_font.length
      ∧ gca_font[475]? = none
      ∧ lcd_putc env 127 s = none
      ∧ lcd_putc env 255 s = none := by
  refine ⟨?_, ?_, lcd_putc_del_no_result env 127 s (by decide),
    lcd_putc_del_no_result env 255 s (by decide)⟩
  · rw [gca_font_length]; decide
  · rw [List.getElem?_eq_none_iff, gca_font_length]

/-! ## The documented format codes -/

/-- Claim C15 (refuted by the code): the backspace byte 0x08 does nothing. Its
value is below 32 and it is not the newline code, so `lcd_putc(0x08)` returns
the state unchanged: after `lcd_putc(c)` and `lcd_putc(0x08)` the outcome is
that of `lcd_putc(c)` alone. From cursor (0, 0), `'A'` followed by 0x08 leaves
the cursor at (7, 0) and sends only the 7 data bytes of `'A'`; no zero byte
overwrites the cell. -/
theorem lcd_putc_backspace_erases_nothing (env : Env) (s : Lcd) :
    lcd_putc env 0x08 s = some s
      ∧ (∀ c, lcd_puts env [c, 0x08] s = lcd_putc env c s)
      ∧ lcd_puts ⟨false, true, true, false⟩ [65, 0x08] ⟨0, 0, 0, 0, 1, []⟩ =
          some ⟨0, 0, 7, 1, 1,
            [BusByte.data 0x3E, BusByte.data 0x48, BusByte.data 0x88, BusByte.data 0x48,
             BusByte.data 0x3E, BusByte.data 0x00, BusByte.data 0x00]⟩ := by
  have hbs : ∀ t, lcd_putc env 0x08 t = some t := fun t =>
    lcd_putc_control_noop env 0x08 t (by decide) (by decide)
  have hbs0 : ∀ t, lcd_putc ⟨false, true, true, false⟩ 0x08 t = some t := fun t =>
    lcd_putc_control_noop _ 0x08 t (by decide) (by decide)
  have hA : (gca_font.drop (((65 &&& 0x7F) - 32) * 5)).take 5 = [0x3E, 0x48, 0x88, 0x48, 0x3E] := by
    unfold gca_font; decide
  refine ⟨hbs s, ?_, ?_⟩
  · intro c
    simp only [lcd_puts]
    cases lcd_putc env c s with
    | none => rfl
    | some t => simp only [hbs t]
  · simp only [lcd_puts]
    rw [lcd_putc_printable_nowrap ⟨false, true, true, false⟩ 65 ⟨0, 0, 0, 0, 1, []⟩ (by decide)
      (by decide) (by decide) (by decide) (by decide), hA]
    simp only [hbs0]
    rfl

/-- Claim C16 (refuted by the code): the space-run code 0x01 is not interpreted.
`lcd_putc(0x01)` returns the state unchanged, and the operand digits are drawn
as ordinary characters: feeding 0x01, '0', '5', 'T' from cursor (0, 0) sends
the glyphs of '0', '5' and 'T' (21 data bytes, no run of 35 zero bytes) and
leaves the cursor at (21, 0), not (42, 0). -/
theorem lcd_putc_space_run_not_interpreted (env : Env) (s : Lcd) :
    lcd_putc env 0x01 s = some s
      ∧ lcd_puts ⟨false, true, true, false⟩ [0x01, 48, 53, 84] ⟨0, 0, 0, 0, 1, []⟩ =
          some ⟨0, 0, 21, 1, 1,
            [BusByte.data 0x7C, BusByte.data 0x8A, BusByte.data 0x92, BusByte.data 0xA2,
             BusByte.data 0x7C, BusByte.data 0x00, BusByte.data 0x00,
             BusByte.data 0xE4, BusByte.data 0xA2, BusByte.data 0xA2, BusByte.data 0xA2,
             BusByte.data 0x9C, BusByte.data 0x00, BusByte.data 0x00,
             BusByte.data 0xC0, BusByte.data 0x80, BusByte.data 0xFE, BusByte.data 0x80,
             BusByte.data 0xC0, BusByte.data 0x00, BusByte.data 0x00]⟩ := by
  have h0 : (gca_font.drop (((48 &&& 0x7F) - 32) * 5)).take 5 = [0x7C, 0x8A, 0x92, 0xA2, 0x7C] := by
    unfold gca_font; decide
  have h5 : (gca_font.drop (((53 &&& 0x7F) - 32) * 5)).take 5 = [0xE4, 0xA2, 0xA2, 0xA2, 0x9C] := by
    unfold gca_font; decide
  have hT : (gca_font.drop (((84 &&& 0x7F) - 32) * 5)).take 5 = [0xC0, 0x80, 0xFE, 0x80, 0xC0] := by
    unfold gca_font; decide
  refine ⟨lcd_putc_control_noop env 0x01 s (by decide) (by decide), ?_⟩
  simp only [lcd_puts]
  rw [lcd_putc_control_noop ⟨false, true, true, false⟩ 0x01 _ (by decide) (by decide)]
  simp only []
  rw [lcd_putc_printable_nowrap ⟨false, true, true, false⟩ 48 _ (by decide)
    (by decide) (by decide) (by decide) (by decide), h0]
  simp only []
  rw [lcd_putc_printable_nowrap ⟨false, true, true, false⟩ 53 _ (by decide)
    (by decide) (by decide) (by decide) (by decide), h5]
  simp only []
  rw [lcd_putc_printable_nowrap ⟨false, true, true, false⟩ 84 _ (by decide)
    (by decide) (by decide) (by decide) (by decide), hT]
  rfl

/-! ## The cursor range invariant -/

/-- The glyph loop returns whenever its reads lie inside the table, whatever
the transport does, and never touches the cursor. -/
theorem lcd_putc_glyph_total (env : Env) (i p : Nat) (s : Lcd) (h : p + i ≤ 475) :
    ∃ t, lcd_putc_glyph env i p s = some t ∧ t.gw_row = s.gw_row
      ∧ t.gw_column = s.gw_column := by
  induction i generalizing p s with
  | zero => exact ⟨s, rfl, rfl, rfl⟩
  | succ i ih =>
    obtain ⟨h1, _, _⟩ := gca_font_slice p i h
    obtain ⟨t, ht, hr, hc⟩ := ih (p + 1) (lcd_data env (gca_font.getD p 0) s).2 (by omega)
    obtain ⟨g1, g2, _⟩ := lcd_data_globals env (gca_font.getD p 0) s
    refine ⟨t, ?_, hr.trans g1, hc.trans g2⟩
    rw [lcd_putc_glyph, h1]
    exact ht

/-- The newline step always ends with the column at 0 and the row below 8. -/
theorem newline_cursor (env : Env) (s : Lcd) :
    (_lcd_process_putc_newline env s).gw_column = 0
      ∧ (_lcd_process_putc_newline env s).gw_row < 8 := by
  have h9 : ∀ r, r < 8 → r % 256 < (if env.ADAFRUIT_ST7565_LCD then 9 else 8) := by
    intro r hr; split_ifs <;> omega
  simp only [_lcd_process_putc_newline, ST7565_LCD_MAX_ROWS, ge_iff_le]
  by_cases h : 8 ≤ (s.gw_row + 1) % 65536
  · simp only [h, if_true]
    obtain ⟨_, g2, g3, _⟩ := lcd_goto_valid env 0 (0 % 256)
      { s with gw_row := 0 } (by decide) (h9 0 (by decide))
    exact ⟨g3, by rw [g2]; decide⟩
  · simp only [h, if_false]
    obtain ⟨_, g2, g3, _⟩ := lcd_goto_valid env 0 ((s.gw_row + 1) % 65536 % 256)
      { s with gw_row := (s.gw_row + 1) % 65536 } (by decide) (h9 _ (by omega))
    exact ⟨g3, by rw [g2]; omega⟩

/-- Every byte whose 7-bit value is not 127 gives `lcd_putc` a result, whatever
the transport does, and the result keeps the cursor in range. -/
theorem lcd_putc_keeps_cursor_in_range (env : Env) (c : Nat) (s : Lcd) (hc : c < 256)
    (h127 : c &&& 0x7F ≠ 127) (hs : CursorInRange s) :
    ∃ t, lcd_putc env c s = some t ∧ CursorInRange t := by
  obtain ⟨hrow, hcol⟩ := hs
  have hm : c % 256 = c := Nat.mod_eq_of_lt hc
  have hlt : c &&& 0x7F < 128 := lt_of_le_of_lt Nat.and_le_right (by decide)
  by_cases h32 : c &&& 0x7F < 32
  · by_cases h10 : c &&& 0x7F = 10
    · refine ⟨_lcd_process_putc_newline env s, ?_, (newline_cursor env s).2, ?_⟩
      · simp [lcd_putc, hm, h10, ST7565_LCD_PARAM_FONT_CHAR_MINVAL, ST7565_LCD_FMT_NEWINE]
      · rw [(newline_cursor env s).1]; decide
    · exact ⟨s, lcd_putc_control_noop env c s (by rw [hm]; exact h32) (by rw [hm]; exact h10),
        hrow, hcol⟩
  · have h4 : ((c &&& 0x7F) - 32) * 5 % 4294967296 = ((c &&& 0x7F) - 32) * 5 := by omega
    have h2 : (s.gw_column + 7) % 65536 = s.gw_column + 7 := by omega
    simp only [lcd_putc, hm, ST7565_LCD_PARAM_FONT_CHAR_MINVAL, h32, if_false,
      ST7565_LCD_PARAM_FONT_CHARWIDTH, ST7565_LCD_PARAM_FONT_WIDTH, ST7565_LCD_MAX_COLUMNS,
      ge_iff_le, h2, h4]
    by_cases hwrap : 128 ≤ s.gw_column + 7
    · simp only [hwrap, if_true]
      obtain ⟨n1, n2⟩ := newline_cursor env { s with gw_column := s.gw_column + 7 }
      obtain ⟨t, ht, hr, hcl⟩ := lcd_putc_glyph_total env 5 (((c &&& 0x7F) - 32) * 5)
        { _lcd_process_putc_newline env { s with gw_column := s.gw_column + 7 } with
          gw_column := ((_lcd_process_putc_newline env
            { s with gw_column := s.gw_column + 7 }).gw_column + 7) % 65536 } (by omega)
      rw [ht]
      obtain ⟨d1, d2, _⟩ := lcd_data_loop_globals env 0x00 (7 - 5) t
      refine ⟨_, rfl, ?_, ?_⟩
      · rw [d1, hr]; exact n2
      · rw [d2, hcl]
        simp only [n1]
        decide
    · simp only [hwrap, if_false]
      obtain ⟨t, ht, hr, hcl⟩ := lcd_putc_glyph_total env 5 (((c &&& 0x7F) - 32) * 5)
        { s with gw_column := s.gw_column + 7 } (by omega)
      rw [ht]
      obtain ⟨d1, d2, _⟩ := lcd_data_loop_globals env 0x00 (7 - 5) t
      refine ⟨_, rfl, ?_, ?_⟩
      · rw [d1, hr]; exact hrow
      · rw [d2, hcl]
        simp only []
        omega

theorem lcd_bright_globals (env : Env) (v : Int) (s : Lcd) :
    (lcd_bright env v s).2.gw_row = s.gw_row ∧ (lcd_bright env v s).2.gw_column = s.gw_column := by
  unfold lcd_bright
  simp only []
  split_ifs <;> simp [lcd_cmd_globals]

theorem lcd_putc_glyph_past_globals (env : Env) (past : Nat → Nat) (i p : Nat) (s : Lcd) :
    (lcd_putc_glyph_past env past i p s).gw_row = s.gw_row
      ∧ (lcd_putc_glyph_past env past i p s).gw_column = s.gw_column := by
  induction i generalizing p s with
  | zero => exact ⟨rfl, rfl⟩
  | succ i ih =>
    obtain ⟨h1, h2⟩ := ih (p + 1) (lcd_data env ((gca_font[p]?).getD (past p)) s).2
    obtain ⟨g1, g2, _⟩ := lcd_data_globals env ((gca_font[p]?).getD (past p)) s
    rw [lcd_putc_glyph_past]
    exact ⟨h1.trans g1, h2.trans g2⟩

/-- Where the glyph loop of the model has a result, the loop that reads on
past the table has the same one, whatever lies past the table. -/
theorem lcd_putc_glyph_past_agrees (env : Env) (past : Nat → Nat) (i p : Nat) (s t : Lcd)
    (h : lcd_putc_glyph env i p s = some t) : lcd_putc_glyph_past env past i p s = t := by
  induction i generalizing p s with
  | zero =>
    rw [lcd_putc_glyph] at h
    exact Option.some.inj h
  | succ i ih =>
    rw [lcd_putc_glyph] at h
    rw [lcd_putc_glyph_past]
    cases hg : gca_font[p]? with
    | none => rw [hg] at h; exact absurd h (by simp)
    | some d =>
      rw [hg] at h
      exact ih (p + 1) _ h

theorem lcd_putc_past_agrees (env : Env) (past : Nat → Nat) (c : Nat) (s t : Lcd)
    (h : lcd_putc env c s = some t) : lcd_putc_past env past c s = t := by
  unfold lcd_putc at h
  unfold lcd_putc_past
  simp only [] at h ⊢
  split_ifs at h ⊢
  · exact Option.some.inj h
  · exact Option.some.inj h
  · exact Option.some.inj h
  · cases hg : lcd_putc_glyph env ST7565_LCD_PARAM_FONT_WIDTH
        (((c % 256 &&& 0x7F) - ST7565_LCD_PARAM_FONT_CHAR_MINVAL) * ST7565_LCD_PARAM_FONT_WIDTH
          % 4294967296)
        { _lcd_process_putc_newline env
            { s with gw_column := (s.gw_column + ST7565_LCD_PARAM_FONT_CHARWIDTH) % 65536 } with
          gw_column := ((_lcd_process_putc_newline env
            { s with gw_column := (s.gw_column + ST7565_LCD_PARAM_FONT_CHARWIDTH) % 65536 }).gw_column
              + ST7565_LCD_PARAM_FONT_CHARWIDTH) % 65536 } with
    | none => rw [hg] at h; exact absurd h (by simp)
    | some u =>
      rw [hg] at h
      rw [lcd_putc_glyph_past_agrees env past _ _ _ u hg]
      exact Option.some.inj h
  · cases hg : lcd_putc_glyph env ST7565_LCD_PARAM_FONT_WIDTH
        (((c % 256 &&& 0x7F) - ST7565_LCD_PARAM_FONT_CHAR_MINVAL) * ST7565_LCD_PARAM_FONT_WIDTH
          % 4294967296)
        { s with gw_column := (s.gw_column + ST7565_LCD_PARAM_FONT_CHARWIDTH) % 65536 } with
    | none => rw [hg] at h; exact absurd h (by simp)
    | some u =>
      rw [hg] at h
      rw [lcd_putc_glyph_past_agrees env past _ _ _ u hg]
      exact Option.some.inj h

/-- Every byte, 127 and 255 included, leaves the cursor in range: the cursor
is advanced before the glyph is read, and neither the glyph loop nor the
spacing loop writes a cursor field, whatever bytes the glyph read yields. -/
theorem lcd_putc_past_keeps_cursor_in_range (env : Env) (past : Nat → Nat) (c : Nat) (s : Lcd)
    (hs : CursorInRange s) : CursorInRange (lcd_putc_past env past c s) := by
  obtain ⟨hrow, hcol⟩ := hs
  unfold lcd_putc_past
  simp only [ST7565_LCD_PARAM_FONT_CHAR_MINVAL, ST7565_LCD_PARAM_FONT_CHARWIDTH,
    ST7565_LCD_PARAM_FONT_WIDTH, ST7565_LCD_MAX_COLUMNS, ge_iff_le]
  have h2 : (s.gw_column + 7) % 65536 = s.gw_column + 7 := by omega
  split_ifs with h32 hnl hcur hwrap
  · exact ⟨(newline_cursor env s).2, by rw [(newline_cursor env s).1]; decide⟩
  · exact absurd hcur (cursor_branch_dead env c)
  · exact ⟨hrow, hcol⟩
  · obtain ⟨n1, n2⟩ := newline_cursor env { s with gw_column := (s.gw_column + 7) % 65536 }
    obtain ⟨d1, d2, _⟩ := lcd_data_loop_globals env 0x00 (7 - 5)
      (lcd_putc_glyph_past env past 5 (((c % 256 &&& 0x7F) - 32) * 5 % 4294967296)
        { _lcd_process_putc_newline env { s with gw_column := (s.gw_column + 7) % 65536 } with
          gw_column := ((_lcd_process_putc_newline env
            { s with gw_column := (s.gw_column + 7) % 65536 }).gw_column + 7) % 65536 })
    obtain ⟨g1, g2⟩ := lcd_putc_glyph_past_globals env past 5
      (((c % 256 &&& 0x7F) - 32) * 5 % 4294967296)
      { _lcd_process_putc_newline env { s with gw_column := (s.gw_column + 7) % 65536 } with
        gw_column := ((_lcd_process_putc_newline env
          { s with gw_column := (s.gw_column + 7) % 65536 }).gw_column + 7) % 65536 }
    refine ⟨?_, ?_⟩
    · rw [d1, g1]; exact n2
    · rw [d2, g2]
      simp only [n1]
      decide
  · obtain ⟨d1, d2, _⟩ := lcd_data_loop_globals env 0x00 (7 - 5)
      (lcd_putc_glyph_past env past 5 (((c % 256 &&& 0x7F) - 32) * 5 % 4294967296)
        { s with gw_column := (s.gw_column + 7) % 65536 })
    obtain ⟨g1, g2⟩ := lcd_putc_glyph_past_globals env past 5
      (((c % 256 &&& 0x7F) - 32) * 5 % 4294967296)
      { s with gw_column := (s.gw_column + 7) % 65536 }
    refine ⟨?_, ?_⟩
    · rw [d1, g1]; exact hrow
    · rw [d2, g2]
      simp only []
      omega

/-- Claim C18: on the standard build and whatever the transport does, the
cursor range invariant `gw_row < 8` and `gw_column < 128` is preserved by every
operation: by `lcd_goto` with any arguments, valid or not, by `lcd_clear`, by
`lcd_putc` with any byte 0 .. 255, by `lcd_standby`, `lcd_sleep` and
`lcd_wakeup`. For `lcd_putc` this holds for every byte, the bytes 127 and 255
included, whatever bytes the glyph read past the table yields: the cursor is
advanced before the glyph is read and nothing after it writes a cursor field.
Whenever the model of `lcd_putc` with bounded reads has a result it is that
same state, and it has one for every byte whose 7-bit value is not 127. -/
theorem cursor_range_preserved (env : Env) (hv : env.ADAFRUIT_ST7565_LCD = false)
    (s : Lcd) (hs : CursorInRange s) :
    (∀ column row, CursorInRange (lcd_goto env column row s).2)
      ∧ CursorInRange (lcd_clear env s).2
      ∧ (∀ c, c < 256 → ∀ past, CursorInRange (lcd_putc_past env past c s))
      ∧ (∀ c, c < 256 → ∀ t, lcd_putc env c s = some t →
          CursorInRange t ∧ ∀ past, lcd_putc_past env past c s = t)
      ∧ (∀ c, c < 256 → c &&& 0x7F ≠ 127 → ∃ t, lcd_putc env c s = some t ∧ CursorInRange t)
      ∧ (∀ b, CursorInRange (lcd_standby env b s))
      ∧ CursorInRange (lcd_sleep env s)
      ∧ CursorInRange (lcd_wakeup env s) := by
  refine ⟨?_, ?_, ?_, ?_, ?_, ?_, ?_, ?_⟩
  · intro column row
    by_cases h : column < 128 ∧ row < 8
    · obtain ⟨_, g2, g3, _⟩ := lcd_goto_valid env column row s h.1 (by rw [hv]; exact h.2)
      exact ⟨by rw [g2]; exact h.2, by rw [g3]; exact h.1⟩
    · have h2 : (lcd_goto env column row s).2 = s := by
        by_cases hc : 128 ≤ column
        · simp [lcd_goto, ST7565_LCD_MAX_COLUMNS, hc]
        · have hr : 8 ≤ row := by omega
          simp [lcd_goto, hv, ST7565_LCD_MAX_COLUMNS, ST7565_LCD_MAX_ROWS, hc, hr]
      rw [h2]
      exact hs
  · obtain ⟨_, h2, h3⟩ := lcd_clear_result env s
    exact ⟨by rw [h2]; decide, by rw [h3]; decide⟩
  · intro c _ past
    exact lcd_putc_past_keeps_cursor_in_range env past c s hs
  · intro c _ t ht
    have hp := lcd_putc_past_agrees env (fun _ => 0) c s t ht
    refine ⟨?_, fun past => lcd_putc_past_agrees env past c s t ht⟩
    rw [← hp]
    exact lcd_putc_past_keeps_cursor_in_range env (fun _ => 0) c s hs
  · intro c hc h127
    exact lcd_putc_keeps_cursor_in_range env c s hc h127 hs
  · intro b
    unfold CursorInRange lcd_standby
    split_ifs <;> simp [lcd_cmd_globals, hs.1, hs.2]
  · unfold CursorInRange lcd_sleep
    simp [lcd_cmd_globals, hs.1, hs.2]
  · unfold CursorInRange lcd_wakeup
    simp [lcd_cmd_globals, lcd_bright_globals, hs.1, hs.2]

theorem cursor_range_preserved_witness :
    (∀ past, CursorInRange (lcd_putc_past ⟨false, true, true, false⟩ past 127
        ⟨0, 7, 127, 0, 1, []⟩))
      ∧ (∃ t, lcd_putc ⟨false, true, true, false⟩ 65 ⟨0, 7, 127, 0, 1, []⟩ = some t
          ∧ CursorInRange t)
      ∧ CursorInRange (lcd_goto ⟨false, true, true, false⟩ 200 9 ⟨0, 7, 127, 0, 1, []⟩).2 :=
  have h := cursor_range_preserved ⟨false, true, true, false⟩ rfl
    ⟨0, 7, 127, 0, 1, []⟩ ⟨by decide, by decide⟩
  ⟨h.2.2.1 127 (by decide), h.2.2.2.2.1 65 (by decide) (by decide), h.1 200 9⟩

/-! ## Sleep and wake-up -/

/-- Claim C21: on the standard build with a working transport, `lcd_sleep`
sends exactly the commands 0xAC, 0xAE, 0xA5 in this order, and `lcd_wakeup`
sends exactly 0xE2, 0x81, 0x00, 0xA4, 0xAF, 0xAD, 0x03 in this order; neither
sends a data byte and neither changes the stored cursor. -/
theorem lcd_sleep_wakeup_command_sequences (env : Env) (hv : env.ADAFRUIT_ST7565_LCD = false)
    (s : Lcd) (hw : Working env s) :
    (lcd_sleep env s).bus = s.bus ++ [BusByte.cmd 0xAC, BusByte.cmd 0xAE, BusByte.cmd 0xA5]
      ∧ (lcd_wakeup env s).bus =
          s.bus ++ [BusByte.cmd 0xE2, BusByte.cmd 0x81, BusByte.cmd 0x00, BusByte.cmd 0xA4,
                    BusByte.cmd 0xAF, BusByte.cmd 0xAD, BusByte.cmd 0x03]
      ∧ (∀ b ∈ (lcd_sleep env s).bus.drop s.bus.length, b.isData = false)
      ∧ (∀ b ∈ (lcd_wakeup env s).bus.drop s.bus.length, b.isData = false)
      ∧ (lcd_sleep env s).gw_column = s.gw_column
      ∧ (lcd_sleep env s).gw_row = s.gw_row
      ∧ (lcd_wakeup env s).gw_column = s.gw_column
      ∧ (lcd_wakeup env s).gw_row = s.gw_row := by
  have h1 : lcd_sleep env s =
      { s with pin_A0 := 0,
               bus := s.bus ++ [BusByte.cmd 0xAC, BusByte.cmd 0xAE, BusByte.cmd 0xA5] } := by
    simp only [lcd_sleep, ST7565_LCD_CMD_SET_STATIC_OFF, ST7565_LCD_CMD_DISPLAY_OFF,
      ST7565_LCD_CMD_SET_ALLPTS_ON]
    simp [lcd_cmd_working, Working, hw.1, hw.2.1, hw.2.2]
  have h2 : lcd_wakeup env s =
      { s with pin_A0 := 0,
               bus := s.bus ++ [BusByte.cmd 0xE2, BusByte.cmd 0x81, BusByte.cmd 0x00,
                 BusByte.cmd 0xA4, BusByte.cmd 0xAF, BusByte.cmd 0xAD, BusByte.cmd 0x03] } := by
    simp only [lcd_wakeup, ST7565_LCD_CMD_INTERNAL_RESET, ST7565_LCD_PARAM_BRIGHTNESS, hv,
      ST7565_LCD_CMD_SET_ALLPTS_NORMAL, ST7565_LCD_CMD_DISPLAY_ON, ST7565_LCD_CMD_SET_STATIC_ON,
      ST7565_LCD_CMD_SET_STATIC_REG]
    simp [lcd_cmd_working, lcd_bright_working, Working, hw.1, hw.2.1, hw.2.2]
  rw [h1, h2]
  refine ⟨rfl, rfl, ?_, ?_, rfl, rfl, rfl, rfl⟩
  · simp [BusByte.isData]
  · simp [BusByte.isData]

theorem lcd_sleep_wakeup_command_sequences_witness :
    (lcd_sleep ⟨false, true, true, false⟩ ⟨0, 2, 35, 1, 1, []⟩).bus =
        [] ++ [BusByte.cmd 0xAC, BusByte.cmd 0xAE, BusByte.cmd 0xA5]
      ∧ (lcd_wakeup ⟨false, true, true, false⟩ ⟨0, 2, 35, 1, 1, []⟩).bus =
          [] ++ [BusByte.cmd 0xE2, BusByte.cmd 0x81, BusByte.cmd 0x00, BusByte.cmd 0xA4,
                 BusByte.cmd 0xAF, BusByte.cmd 0xAD, BusByte.cmd 0x03] :=
  have h := lcd_sleep_wakeup_command_sequences ⟨false, true, true, false⟩ rfl
    ⟨0, 2, 35, 1, 1, []⟩ (by decide)
  ⟨h.1, h.2.1⟩

/-! ## Contrast value -/

theorem ldiff_63 (m : Nat) : Nat.ldiff 63 m = 63 - m % 64 := by
  have h1 : Nat.ldiff 63 m = 63 ^^^ (m % 64) := by
    apply Nat.eq_of_testBit_eq
    intro i
    have h63 : (63 : Nat) = 2 ^ 6 - 1 := by decide
    have h64 : (64 : Nat) = 2 ^ 6 := by decide
    rw [Nat.testBit_ldiff, Nat.testBit_xor, h63, h64, Nat.testBit_two_pow_sub_one,
      Nat.testBit_mod_two_pow]
    by_cases h : i < 6 <;> simp [h]
  have h2 : ∀ k, k < 64 → 63 ^^^ k = 63 - k := by decide
  rw [h1, h2 _ (Nat.mod_lt _ (by decide))]

/-- The two's-complement `bValue & 0x3f` of the source is `bValue` modulo 64,
the form `lcd_bright` is written in. -/
theorem int_land_0x3f (v : Int) : Int.land v 0x3f = v % 64 := by
  cases v with
  | ofNat n =>
    show ((Nat.land n 63 : Nat) : Int) = (n : Int) % 64
    have h : Nat.land n 63 = n % 64 := Nat.and_pow_two_sub_one_eq_mod n 6
    rw [h]; omega
  | negSucc m =>
    show ((Nat.ldiff 63 m : Nat) : Int) = Int.negSucc m % 64
    rw [ldiff_63, Int.negSucc_eq]
    omega

/-- Claim C22: with a working transport, for every value `v` in 0 .. 63
`lcd_bright(v)` returns 0 and sends exactly two command bytes, 0x81 then `v`;
for every integer `v` it returns 0 and the second byte sent is `v AND 0x3F`,
which always lies in 0 .. 63. -/
theorem lcd_bright_sends_contrast_pair (env : Env) (s : Lcd) (hw : Working env s) :
    (∀ v : Int, 0 ≤ v → v ≤ 63 →
        (lcd_bright env v s).1 = 0
          ∧ (lcd_bright env v s).2.bus = s.bus ++ [BusByte.cmd 0x81, BusByte.cmd v.toNat])
      ∧ ∀ v : Int, ∃ b : Nat,
          (lcd_bright env v s).1 = 0
            ∧ (lcd_bright env v s).2.bus = s.bus ++ [BusByte.cmd 0x81, BusByte.cmd b]
            ∧ (b : Int) = Int.land v 0x3F
            ∧ b ≤ 63 := by
  constructor
  · intro v h0 h63
    have hb : (v % 64).toNat % 256 = v.toNat := by omega
    rw [lcd_bright_working env v s hw, hb]
    exact ⟨rfl, rfl⟩
  · intro v
    have hb : (v % 64).toNat % 256 = (v % 64).toNat := by omega
    refine ⟨(v % 64).toNat, ?_, ?_, ?_, by omega⟩
    · rw [lcd_bright_working env v s hw]
    · rw [lcd_bright_working env v s hw, hb]
    · rw [int_land_0x3f]; omega

theorem lcd_bright_sends_contrast_pair_witness :
    (lcd_bright ⟨false, true, true, false⟩ 24 ⟨0, 0, 0, 1, 1, []⟩).1 = 0
      ∧ (lcd_bright ⟨false, true, true, false⟩ 24 ⟨0, 0, 0, 1, 1, []⟩).2.bus
          = [] ++ [BusByte.cmd 0x81, BusByte.cmd (24 : Int).toNat] :=
  (lcd_bright_sends_contrast_pair ⟨false, true, true, false⟩ ⟨0, 0, 0, 1, 1, []⟩
    (by decide)).1 24 (by decide) (by decide)

/-! ## The addressing encoding -/

theorem std_encoding (column row : Nat) (hc : column < 128) (hr : row < 8) :
    row = 7 - ((0xB0 ||| (7 - row)) &&& 0x0F)
      ∧ column = 16 * ((0x10 ||| ((column >>> 4) &&& 0x07)) &&& 0x0F)
          + ((0x00 ||| (column &&& 0x0F)) &&& 0x0F)
      ∧ 0xB0 ≤ 0xB0 ||| (7 - row) ∧ 0xB0 ||| (7 - row) ≤ 0xB7
      ∧ 0x00 ||| (column &&& 0x0F) ≤ 0x0F
      ∧ 0x10 ≤ 0x10 ||| ((column >>> 4) &&& 0x07) ∧ 0x10 ||| ((column >>> 4) &&& 0x07) ≤ 0x17 := by
  have h1 : ∀ r, r < 8 → r = 7 - ((0xB0 ||| (7 - r)) &&& 0x0F)
      ∧ 0xB0 ≤ 0xB0 ||| (7 - r) ∧ 0xB0 ||| (7 - r) ≤ 0xB7 := by decide
  have h2 : ∀ c, c < 128 →
      c = 16 * ((0x10 ||| ((c >>> 4) &&& 0x07)) &&& 0x0F) + ((0x00 ||| (c &&& 0x0F)) &&& 0x0F)
      ∧ 0x00 ||| (c &&& 0x0F) ≤ 0x0F
      ∧ 0x10 ≤ 0x10 ||| ((c >>> 4) &&& 0x07) ∧ 0x10 ||| ((c >>> 4) &&& 0x07) ≤ 0x17 := by
    decide
  obtain ⟨a1, a2, a3⟩ := h1 row hr
  obtain ⟨b1, b2, b3, b4⟩ := h2 column hc
  exact ⟨a1, b1, a2, a3, b2, b3, b4⟩

/-- Claim C25: on the standard build with a working transport the addressing
encoding of `lcd_goto` is lossless: for every column below 128 and row below 8
the three command bytes (p, lo, hi) it sends satisfy `row = 7 - (p & 0x0F)` and
`column = 16 * (hi & 0x0F) + (lo & 0x0F)`, each byte keeps its opcode bits
(p in 0xB0 .. 0xB7, lo in 0x00 .. 0x0F, hi in 0x10 .. 0x17), and a valid
position that produces the same bus output is the same position. -/
theorem lcd_goto_encoding_lossless (env : Env) (hv : env.ADAFRUIT_ST7565_LCD = false)
    (s : Lcd) (hw : Working env s) (column row : Nat) (hc : column < 128) (hr : row < 8) :
    ∃ p lo hi,
      (lcd_goto env column row s).2.bus = s.bus ++ [BusByte.cmd p, BusByte.cmd lo, BusByte.cmd hi]
        ∧ row = 7 - (p &&& 0x0F)
        ∧ column = 16 * (hi &&& 0x0F) + (lo &&& 0x0F)
        ∧ 0xB0 ≤ p ∧ p ≤ 0xB7
        ∧ lo ≤ 0x0F
        ∧ 0x10 ≤ hi ∧ hi ≤ 0x17
        ∧ ∀ column2 row2, column2 < 128 → row2 < 8 →
            (lcd_goto env column2 row2 s).2.bus = (lcd_goto env column row s).2.bus →
            column2 = column ∧ row2 = row := by
  obtain ⟨e1, e2, e3, e4, e5, e6, e7⟩ := std_encoding column row hc hr
  refine ⟨_, _, _, by rw [lcd_goto_working env hv column row s hw hc hr], e1, e2, e3, e4, e5,
    e6, e7, ?_⟩
  intro column2 row2 hc2 hr2 hbus
  obtain ⟨f1, f2, _⟩ := std_encoding column2 row2 hc2 hr2
  rw [lcd_goto_working env hv column row s hw hc hr,
    lcd_goto_working env hv column2 row2 s hw hc2 hr2] at hbus
  have hl := List.append_cancel_left hbus
  simp only [List.cons.injEq, BusByte.cmd.injEq, and_true] at hl
  obtain ⟨g1, g2, g3⟩ := hl
  constructor
  · rw [f2, e2, g2, g3]
  · rw [f1, e1, g1]

theorem lcd_goto_encoding_lossless_witness :
    ∃ p lo hi,
      (lcd_goto ⟨false, true, true, false⟩ 93 5 ⟨0, 0, 0, 1, 1, []⟩).2.bus
          = [] ++ [BusByte.cmd p, BusByte.cmd lo, BusByte.cmd hi]
        ∧ 5 = 7 - (p &&& 0x0F)
        ∧ 93 = 16 * (hi &&& 0x0F) + (lo &&& 0x0F) :=
  have ⟨p, lo, hi, h1, h2, h3, _⟩ := lcd_goto_encoding_lossless ⟨false, true, true, false⟩ rfl
    ⟨0, 0, 0, 1, 1, []⟩ (by decide) 93 5 (by decide) (by decide)
  ⟨p, lo, hi, h1, h2, h3⟩

/-! ## The extra-row build -/

theorem adafruit_page_lt (r : Nat) : 0xB0 ||| ((7 - (r &&& 0x7)) ^^^ 4) < 256 := by
  have h : ∀ k, k < 8 → 0xB0 ||| ((7 - k) ^^^ 4) < 256 := by decide
  exact h _ (lt_of_le_of_lt Nat.and_le_right (by decide))

/-- With `ADAFRUIT_ST7565_LCD` defined and a working transport, a valid
`lcd_goto` (rows 0 .. 8) returns 0, stores the position and sends the page
command of the transformed row and the two column commands of `column + 1`. -/
theorem lcd_goto_working_adafruit (env : Env) (ha : env.ADAFRUIT_ST7565_LCD = true)
    (column row : Nat) (s : Lcd) (hw : Working env s) (hc : column < 128) (hr : row < 9) :
    lcd_goto env column row s =
      (0, { s with gw_row := row, gw_column := column, pin_A0 := 0,
                   bus := s.bus ++ [BusByte.cmd (0xB0 ||| ((7 - (row &&& 0x7)) ^^^ 4)),
                                    BusByte.cmd (0x00 ||| ((column + 1) &&& 0x0F)),
                                    BusByte.cmd (0x10 ||| (((column + 1) >>> 4) &&& 0x07))] }) := by
  have hnc : ¬ 128 ≤ column := by omega
  have hnr : ¬ 8 + 1 ≤ row := by omega
  have h256 : (column + 1) % 256 = column + 1 := by omega
  simp only [lcd_goto, ha, ST7565_LCD_MAX_COLUMNS, ST7565_LCD_MAX_ROWS, hnc, hnr, if_false,
    ge_iff_le, if_true, h256,
    ST7565_LCD_CMD_SET_PAGE, ST7565_LCD_CMD_SET_COLUMN_LOWER, ST7565_LCD_CMD_SET_COLUMN_UPPER]
  simp [lcd_cmd_working, Working, hw.1, hw.2.1, hw.2.2, Nat.mod_eq_of_lt (adafruit_page_lt row),
    Nat.mod_eq_of_lt (column_lower_lt (column + 1)),
    Nat.mod_eq_of_lt (column_upper_lt (column + 1))]

/-- Claim C23 (holds up to column 126, refuted at column 127): with
`ADAFRUIT_ST7565_LCD` defined and a working transport, for every column below
128 and row below 9 `lcd_goto` sends the page-select byte
`0xB0 | ((7 - (row & 7)) ^ 4)` and the column commands
`lo = 0x00 | ((column + 1) & 0x0F)` and `hi = 0x10 | (((column + 1) >> 4) & 0x07)`.
For a column below 127 they encode the pre-incremented column,
`16 * (hi & 0x07) + (lo & 0x0F) = column + 1`; for column 127 the value 128
loses its top bit under the 3-bit mask, the commands are 0x00 and 0x10, and
they encode column 0. -/
theorem lcd_goto_adafruit_column_commands (env : Env) (ha : env.ADAFRUIT_ST7565_LCD = true)
    (s : Lcd) (hw : Working env s) (column row : Nat) (hc : column < 128) (hr : row < 9) :
    ∃ lo hi,
      (lcd_goto env column row s).2.bus =
          s.bus ++ [BusByte.cmd (0xB0 ||| ((7 - (row &&& 0x7)) ^^^ 4)), BusByte.cmd lo,
                    BusByte.cmd hi]
        ∧ lo = 0x00 ||| ((column + 1) &&& 0x0F)
        ∧ hi = 0x10 ||| (((column + 1) >>> 4) &&& 0x07)
        ∧ (column < 127 → 16 * (hi &&& 0x07) + (lo &&& 0x0F) = column + 1)
        ∧ (column = 127 → lo = 0x00 ∧ hi = 0x10 ∧ 16 * (hi &&& 0x07) + (lo &&& 0x0F) = 0) := by
  have h1 : ∀ c, c < 127 →
      16 * ((0x10 ||| (((c + 1) >>> 4) &&& 0x07)) &&& 0x07) + ((0x00 ||| ((c + 1) &&& 0x0F)) &&& 0x0F)
        = c + 1 := by decide
  refine ⟨_, _, by rw [lcd_goto_working_adafruit env ha column row s hw hc hr], rfl, rfl,
    h1 column, ?_⟩
  intro h127
  subst h127
  decide

theorem lcd_goto_adafruit_column_commands_witness :
    ∃ lo hi,
      (lcd_goto ⟨true, true, true, false⟩ 127 0 ⟨0, 0, 0, 1, 1, []⟩).2.bus =
          [] ++ [BusByte.cmd (0xB0 ||| ((7 - (0 &&& 0x7)) ^^^ 4)), BusByte.cmd lo, BusByte.cmd hi]
        ∧ lo = 0x00 ∧ hi = 0x10 ∧ 16 * (hi &&& 0x07) + (lo &&& 0x0F) = 0 :=
  have ⟨lo, hi, h1, _, _, _, h5⟩ := lcd_goto_adafruit_column_commands ⟨true, true, true, false⟩
    rfl ⟨0, 0, 0, 1, 1, []⟩ (by decide) 127 0 (by decide) (by decide)
  ⟨lo, hi, h1, h5 rfl⟩

theorem lcd_clear_loop_working_adafruit (env : Env) (ha : env.ADAFRUIT_ST7565_LCD = true)
    (n r : Nat) (s : Lcd) (hw : Working env s) (hn : r + n ≤ 9) :
    lcd_clear_loop env n r s =
      (0, { s with gw_row := 0, gw_column := 0, pin_A0 := 0,
                   bus := s.bus ++ (List.range' r n).flatMap (fun k =>
                       [BusByte.cmd (0xB0 ||| ((7 - (k &&& 0x7)) ^^^ 4)), BusByte.cmd 0x01,
                        BusByte.cmd 0x10] ++ List.replicate 128 (BusByte.data 0x00))
                     ++ [BusByte.cmd 0xB3, BusByte.cmd 0x01, BusByte.cmd 0x10] }) := by
  induction n generalizing r s with
  | zero =>
    rw [lcd_clear_loop, lcd_goto_working_adafruit env ha 0 0 s hw (by decide) (by decide)]
    simp
  | succ n ih =>
    rw [lcd_clear_loop, lcd_goto_working_adafruit env ha 0 r s hw (by decide) (by omega)]
    simp only [ne_eq, not_true_eq_false, if_false, ST7565_LCD_MAX_COLUMNS]
    rw [lcd_data_loop_working env 0 128 _ ?_ (by decide), ih (r + 1) _ ?_ (by omega)]
    · simp [List.range'_succ, List.flatMap_cons]
    all_goals exact working_of_handle env s _ hw rfl

/-- Claim C26 (refuted by the code): with `ADAFRUIT_ST7565_LCD` defined, rows 0
and 8 select the same page. The page-select byte `0xB0 | ((7 - (r & 7)) ^ 4)`
is 0xB3 for both, because `8 & 7 = 0`; with a working transport `lcd_goto`
sends the same three commands for (column, 0) and (column, 8). Rows 0 .. 7
select eight distinct pages, in sweep order 0xB3, 0xB2, 0xB1, 0xB0, 0xB7,
0xB6, 0xB5, 0xB4, so the 9-row sweep of `lcd_clear` selects page 3 for its
first and again for its ninth row and never selects a ninth page. -/
theorem adafruit_row_8_selects_page_of_row_0 (env : Env) (ha : env.ADAFRUIT_ST7565_LCD = true)
    (s : Lcd) (hw : Working env s) :
    0xB0 ||| ((7 - (0 &&& 0x7)) ^^^ 4) = 0xB3
      ∧ 0xB0 ||| ((7 - (8 &&& 0x7)) ^^^ 4) = 0xB3
      ∧ (∀ column, column < 128 →
          (lcd_goto env column 8 s).2.bus = (lcd_goto env column 0 s).2.bus)
      ∧ (∀ r1 r2, r1 < 8 → r2 < 8 → r1 ≠ r2 →
          0xB0 ||| ((7 - (r1 &&& 0x7)) ^^^ 4) ≠ 0xB0 ||| ((7 - (r2 &&& 0x7)) ^^^ 4))
      ∧ (List.range 9).map (fun r => 0xB0 ||| ((7 - (r &&& 0x7)) ^^^ 4))
          = [0xB3, 0xB2, 0xB1, 0xB0, 0xB7, 0xB6, 0xB5, 0xB4, 0xB3]
      ∧ (lcd_clear env s).2.bus =
          s.bus ++ (List.range 9).flatMap (fun r =>
              [BusByte.cmd (0xB0 ||| ((7 - (r &&& 0x7)) ^^^ 4)), BusByte.cmd 0x01,
               BusByte.cmd 0x10] ++ List.replicate 128 (BusByte.data 0x00))
            ++ [BusByte.cmd 0xB3, BusByte.cmd 0x01, BusByte.cmd 0x10] := by
  have hd : ∀ r1, r1 < 8 → ∀ r2, r2 < 8 → r1 ≠ r2 →
      0xB0 ||| ((7 - (r1 &&& 0x7)) ^^^ 4) ≠ 0xB0 ||| ((7 - (r2 &&& 0x7)) ^^^ 4) := by
    decide
  refine ⟨by decide, by decide, ?_, fun r1 r2 h1 h2 => hd r1 h1 r2 h2, by decide, ?_⟩
  · intro column hc
    rw [lcd_goto_working_adafruit env ha column 8 s hw hc (by decide),
      lcd_goto_working_adafruit env ha column 0 s hw hc (by decide)]
    rfl
  · rw [lcd_clear, ha]
    simp only [if_true, ST7565_LCD_MAX_ROWS]
    rw [lcd_clear_loop_working_adafruit env ha 9 0 s hw (by decide), List.range_eq_range']

theorem adafruit_row_8_selects_page_of_row_0_witness :
    (lcd_goto ⟨true, true, true, false⟩ 5 8 ⟨0, 0, 0, 1, 1, []⟩).2.bus
      = (lcd_goto ⟨true, true, true, false⟩ 5 0 ⟨0, 0, 0, 1, 1, []⟩).2.bus :=
  (adafruit_row_8_selects_page_of_row_0 ⟨true, true, true, false⟩ rfl ⟨0, 0, 0, 1, 1, []⟩
    (by decide)).2.2.1 5 (by decide)

/-! ## Eighteen characters per line -/

theorem countP_isData_map_data (l : List Nat) :
    (l.map BusByte.data).countP BusByte.isData = l.length := by
  induction l with
  | nil => rfl
  | cons x xs ih => simp [List.countP_cons, BusByte.isData, ih]

/-- One printable character moves the cursor from text position `m` to text
position `m + 1` and sends exactly 7 data bytes. -/
theorem lcd_putc_text_step (env : Env) (hv : env.ADAFRUIT_ST7565_LCD = false) (c m : Nat)
    (s : Lcd) (hw : Working env s) (hm : TextCursor m s) (hc : c < 256)
    (hlo : 32 ≤ c &&& 0x7F) (hhi : c &&& 0x7F ≤ 126) :
    ∃ t, lcd_putc env c s = some t ∧ Working env t ∧ TextCursor (m + 1) t
      ∧ ∃ d, t.bus = s.bus ++ d ∧ d.countP BusByte.isData = 7 := by
  have hlen := glyph_slice_length (c &&& 0x7F) hhi
  have hcnt : (((gca_font.drop (((c &&& 0x7F) - 32) * 5)).take 5).map BusByte.data
      ++ [BusByte.data 0x00, BusByte.data 0x00]).countP BusByte.isData = 7 := by
    rw [List.countP_append, countP_isData_map_data, hlen]
    rfl
  by_cases hcase : s.gw_column ≤ 120
  · refine ⟨_, lcd_putc_printable_nowrap env c s hw hc hlo hhi hcase,
      working_of_handle env s _ hw rfl, ?_, _, List.append_assoc _ _ _, hcnt⟩
    right
    rcases hm with ⟨h0, h1, h2⟩ | ⟨h0, h1, h2⟩
    · refine ⟨by omega, ?_, ?_⟩
      · simp only []; omega
      · simp only []; omega
    · refine ⟨by omega, ?_, ?_⟩
      · simp only []; omega
      · simp only []; omega
  · have hcr : 121 ≤ s.gw_column ∧ s.gw_column < 128 ∧ s.gw_row < 8 := by
      rcases hm with ⟨h0, h1, h2⟩ | ⟨h0, h1, h2⟩ <;> omega
    refine ⟨_, lcd_putc_printable_wrap env hv c s hw hc hlo hhi hcr.1 hcr.2.1 hcr.2.2,
      working_of_handle env s _ hw rfl, ?_,
      [BusByte.cmd (0xB0 ||| (7 - (s.gw_row + 1) % 8)), BusByte.cmd 0x00, BusByte.cmd 0x10]
        ++ (((gca_font.drop (((c &&& 0x7F) - 32) * 5)).take 5).map BusByte.data
          ++ [BusByte.data 0x00, BusByte.data 0x00]), ?_, ?_⟩
    · right
      rcases hm with ⟨h0, h1, h2⟩ | ⟨h0, h1, h2⟩
      · omega
      · refine ⟨by omega, ?_, ?_⟩
        · simp only []; omega
        · simp only []; omega
    · simp only [List.append_assoc]
    · rw [List.countP_append, hcnt]
      rfl

theorem lcd_puts_text_run (env : Env) (hv : env.ADAFRUIT_ST7565_LCD = false) (cs : List Nat)
    (hcs : ∀ c ∈ cs, c < 256 ∧ 32 ≤ c &&& 0x7F ∧ c &&& 0x7F ≤ 126) (m : Nat) (s : Lcd)
    (hw : Working env s) (hm : TextCursor m s) :
    ∃ t, lcd_puts env cs s = some t ∧ TextCursor (m + cs.length) t
      ∧ ∃ d, t.bus = s.bus ++ d ∧ d.countP BusByte.isData = 7 * cs.length := by
  induction cs generalizing m s with
  | nil => exact ⟨s, rfl, hm, [], (List.append_nil _).symm, rfl⟩
  | cons c cs ih =>
    obtain ⟨h1, h2, h3⟩ := hcs c (List.mem_cons_self c cs)
    obtain ⟨t, e1, w1, m1, d1, b1, n1⟩ := lcd_putc_text_step env hv c m s hw hm h1 h2 h3
    obtain ⟨u, e2, m2, d2, b2, n2⟩ := ih (fun x hx => hcs x (List.mem_cons_of_mem c hx))
      (m + 1) t w1 m1
    refine ⟨u, ?_, ?_, d1 ++ d2, ?_, ?_⟩
    · rw [lcd_puts, e1]; exact e2
    · rw [List.length_cons, ← Nat.add_assoc m, Nat.add_right_comm]
      rw [Nat.add_right_comm] at m2
      rw [Nat.add_right_comm]
      exact m2
    · rw [b2, b1, List.append_assoc]
    · rw [List.countP_append, n1, n2, List.length_cons]
      omega

/-- Claim C24: on the standard build with a working transport, text lines hold
exactly 18 characters: for every `n >= 1`, feeding `n` printable bytes (7-bit
value in 32 .. 126) to `lcd_putc` from cursor (0, 0) returns, leaves the cursor
at column `7 * (((n - 1) mod 18) + 1)` and row `((n - 1) div 18) mod 8`, and
sends exactly `7 * n` data bytes. -/
theorem lcd_puts_eighteen_per_line (env : Env) (hv : env.ADAFRUIT_ST7565_LCD = false) (s : Lcd)
    (hw : Working env s) (hcol : s.gw_column = 0) (hrow : s.gw_row = 0) (cs : List Nat)
    (hcs : ∀ c ∈ cs, c < 256 ∧ 32 ≤ c &&& 0x7F ∧ c &&& 0x7F ≤ 126) (hn : 1 ≤ cs.length) :
    ∃ t, lcd_puts env cs s = some t
      ∧ t.gw_column = 7 * ((cs.length - 1) % 18 + 1)
      ∧ t.gw_row = ((cs.length - 1) / 18) % 8
      ∧ ((t.bus.drop s.bus.length).filter BusByte.isData).length = 7 * cs.length := by
  obtain ⟨t, e, hm, d, hb, hd⟩ := lcd_puts_text_run env hv cs hcs 0 s hw (Or.inl ⟨rfl, hcol, hrow⟩)
  rw [Nat.zero_add] at hm
  rcases hm with ⟨h0, _, _⟩ | ⟨_, h1, h2⟩
  · omega
  · refine ⟨t, e, h1, h2, ?_⟩
    rw [hb, List.drop_left, ← List.countP_eq_length_filter]
    exact hd

theorem lcd_puts_eighteen_per_line_witness :
    ∃ t, lcd_puts ⟨false, true, true, false⟩ (List.replicate 19 65) ⟨0, 0, 0, 1, 1, []⟩ = some t
      ∧ t.gw_column = 7 * (((List.replicate 19 65).length - 1) % 18 + 1)
      ∧ t.gw_row = (((List.replicate 19 65).length - 1) / 18) % 8
      ∧ ((t.bus.drop ([] : List BusByte).length).filter BusByte.isData).length
          = 7 * (List.replicate 19 65).length :=
  lcd_puts_eighteen_per_line ⟨false, true, true, false⟩ rfl ⟨0, 0, 0, 1, 1, []⟩ (by decide)
    rfl rfl (List.replicate 19 65) (by decide) (by decide)

end LcdST7565
